import Mathlib

/-!
Verification of the sparkl-qr-upload-sdk image editing core.

This file gives a shallow embedding, in Lean, of the geometry and state
logic of the repository:

* the crop-rectangle drag computation of `QrImageEditor.onCropDrag`
  (ImageEditor file, lines 482-546) and of `MultiScan.onCropDrag`
  (`src/QrUpload.ts`, lines 1932-2051);
* the PDF page-fitting arithmetic of `calculateFitDimensions` and the page
  loop of `imagesToPdf` (`src/utils/pdf.ts`);
* the thumbnail reorder handler of `MultiScan.renderThumbnails` and the
  page-capture path `MultiScan.handleImageCapture` / `MultiScan.addPage`
  (`src/QrUpload.ts`);
* the editor state machine of `QrImageEditor`: history push (`saveState`),
  `undo`, `redo`, `resetAll`, `applyCrop`, `handleSave`, the canvas
  bookkeeping of `calculateFixedCanvasSize`, `render` and
  `updateCropOverlay`.

Numeric values that are JavaScript `number`s carrying coordinate
arithmetic are modelled as `ℚ` (all operations appearing in the code are
field operations, `Math.min` / `Math.max`, `Math.round` and floor-style
truncation, all exact on rationals for the inputs that occur).  Pixel
contents of images are modelled by the inductive type `Pix` which records
the provenance of the pixels (a loaded source, a canvas render with the
transforms that produced it, or a crop of another image); two bitmaps are
equal exactly when they have the same provenance and dimensions.
-/

/-! ### Crop rectangle geometry (QrImageEditor.onCropDrag, MultiScan.onCropDrag) -/

/-- A crop rectangle in natural image coordinates:
`{cropX, cropY, cropWidth, cropHeight}` in the editor state,
`{x, y, width, height}` in `MultiScan.cropState`. -/
structure CropRect where
  x : ℚ
  y : ℚ
  w : ℚ
  h : ℚ
deriving DecidableEq, Repr

/-- The eight resize handles of the crop overlay. -/
inductive Handle
  | nw | ne | sw | se | n | s | e | w
deriving DecidableEq, Repr

/-- The spec invariant on a crop rectangle for an image of natural size
`W × H`: nonnegative origin, both sides at least `MIN_SIZE = 50`, and the
rectangle contained in `[0, W] × [0, H]`. -/
def cropInvariant (W H : ℚ) (r : CropRect) : Prop :=
  0 ≤ r.x ∧ 0 ≤ r.y ∧ 50 ≤ r.w ∧ 50 ≤ r.h ∧ r.x + r.w ≤ W ∧ r.y + r.h ≤ H

instance (W H : ℚ) (r : CropRect) : Decidable (cropInvariant W H r) := by
  unfold cropInvariant; infer_instance

/-- One `mousemove` of a handle drag in `QrImageEditor.onCropDrag`
(lines 491-531).  `start` is `this.cropStartState` (captured at
pointer-down), `dx`/`dy` are the pointer delta divided by `imageScale`,
`cur` is `this.state`'s crop fields just before the event, and `W`/`H`
are `this.image.width` / `this.image.height`.  Each `case` writes exactly
the fields the source writes; the remaining fields keep their current
values.  The two-step assignments (`this.state.cropX` first, then
`cropWidth` computed from the just-written `this.state.cropX`) are
mirrored by the `let nx`/`let ny` bindings. -/
def onCropDragHandle (W H : ℚ) (start : CropRect) (hd : Handle) (dx dy : ℚ)
    (cur : CropRect) : CropRect :=
  match hd with
  | .nw =>
      let nx := max 0 (min (start.x + dx) (start.x + start.w - 50))
      let ny := max 0 (min (start.y + dy) (start.y + start.h - 50))
      ⟨nx, ny, start.w - (nx - start.x), start.h - (ny - start.y)⟩
  | .ne =>
      let ny := max 0 (min (start.y + dy) (start.y + start.h - 50))
      ⟨cur.x, ny, max 50 (min (start.w + dx) (W - start.x)),
        start.h - (ny - start.y)⟩
  | .sw =>
      let nx := max 0 (min (start.x + dx) (start.x + start.w - 50))
      ⟨nx, cur.y, start.w - (nx - start.x),
        max 50 (min (start.h + dy) (H - start.y))⟩
  | .se =>
      ⟨cur.x, cur.y, max 50 (min (start.w + dx) (W - start.x)),
        max 50 (min (start.h + dy) (H - start.y))⟩
  | .n =>
      let ny := max 0 (min (start.y + dy) (start.y + start.h - 50))
      ⟨cur.x, ny, cur.w, start.h - (ny - start.y)⟩
  | .s =>
      ⟨cur.x, cur.y, cur.w, max 50 (min (start.h + dy) (H - start.y))⟩
  | .e =>
      ⟨cur.x, cur.y, max 50 (min (start.w + dx) (W - start.x)), cur.h⟩
  | .w =>
      let nx := max 0 (min (start.x + dx) (start.x + start.w - 50))
      ⟨nx, cur.y, start.w - (nx - start.x), cur.h⟩

/-- One `mousemove` of a whole-rectangle move drag
(`QrImageEditor.onCropDrag` lines 532-539, identical in
`MultiScan.onCropDrag` lines 2030-2037): translate the start origin by the
delta and clamp it so the rectangle, at its *current* width and height,
stays inside the image. -/
def onCropDragMove (W H : ℚ) (start : CropRect) (dx dy : ℚ)
    (cur : CropRect) : CropRect :=
  ⟨max 0 (min (start.x + dx) (W - cur.w)),
   max 0 (min (start.y + dy) (H - cur.h)), cur.w, cur.h⟩

/-- The kind of drag session: resize via one of the eight handles, or a
whole-rectangle move (`this.dragType` together with
`this.dragHandleType`). -/
inductive DragType
  | handle (hd : Handle)
  | move
deriving DecidableEq, Repr

/-- The full `QrImageEditor.onCropDrag` move computation (lines 482-546),
dispatching on the drag type. -/
def onCropDrag (W H : ℚ) (start : CropRect) (t : DragType) (dx dy : ℚ)
    (cur : CropRect) : CropRect :=
  match t with
  | .handle hd => onCropDragHandle W H start hd dx dy cur
  | .move => onCropDragMove W H start dx dy cur

/-- The final constraint block of `MultiScan.onCropDrag`
(`src/QrUpload.ts` lines 2012-2015), applied after the per-handle switch:
clamp the origin to `[0, W-50] × [0, H-50]` and each side to
`[50, bound - origin]`. -/
def msFinalClamp (W H : ℚ) (base : CropRect) : CropRect :=
  let nx := max 0 (min base.x (W - 50))
  let ny := max 0 (min base.y (H - 50))
  ⟨nx, ny, max 50 (min base.w (W - nx)), max 50 (min base.h (H - ny))⟩

/-- The handle branch of `MultiScan.onCropDrag` (`src/QrUpload.ts` lines
1947-2028).  The per-handle switch bodies (lines 1958-2009) are the same
formulas as `QrImageEditor.onCropDrag`, computed into locals
`newX`/`newY`/`newWidth`/`newHeight` that are initialised from the start
snapshot (so unwritten fields stay at the start values); the final
constraint block then re-clamps all four values. -/
def msOnCropDragHandle (W H : ℚ) (start : CropRect) (hd : Handle)
    (dx dy : ℚ) : CropRect :=
  msFinalClamp W H (onCropDragHandle W H start hd dx dy start)

/-- The full `MultiScan.onCropDrag` move computation (lines 1932-2051). -/
def msOnCropDrag (W H : ℚ) (start : CropRect) (t : DragType) (dx dy : ℚ)
    (cur : CropRect) : CropRect :=
  match t with
  | .handle hd => msOnCropDragHandle W H start hd dx dy
  | .move => onCropDragMove W H start dx dy cur

/-- During a handle drag, the fields of the live crop state that the
handle's case never writes keep the values captured at drag start.  This
is the session property relating `this.state` to `this.cropStartState`
between the pointer-down and the current move event. -/
def handleAgrees (hd : Handle) (start cur : CropRect) : Prop :=
  match hd with
  | .nw => True
  | .ne => cur.x = start.x
  | .sw => cur.y = start.y
  | .se => cur.x = start.x ∧ cur.y = start.y
  | .n => cur.x = start.x ∧ cur.w = start.w
  | .s => cur.x = start.x ∧ cur.y = start.y ∧ cur.w = start.w
  | .e => cur.x = start.x ∧ cur.y = start.y ∧ cur.h = start.h
  | .w => cur.y = start.y ∧ cur.h = start.h

/-- During a move drag, the width and height of the live crop state keep
the values captured at drag start (a move writes only the origin). -/
def moveAgrees (start cur : CropRect) : Prop :=
  cur.w = start.w ∧ cur.h = start.h

/-- Session agreement for an arbitrary drag type. -/
def dragAgrees (t : DragType) (start cur : CropRect) : Prop :=
  match t with
  | .handle hd => handleAgrees hd start cur
  | .move => moveAgrees start cur

/-- The result of `calculateFitDimensions`: the drawn size of the image on
the page and the top-left corner of the drawing. -/
structure FitPlacement where
  width : ℚ
  height : ℚ
  x : ℚ
  y : ℚ
deriving DecidableEq, Repr

/-- `calculateFitDimensions` (`src/utils/pdf.ts` lines 62-88): fit an
image within a page, preserving aspect ratio, scaling down only
(`Math.min(widthRatio, heightRatio, 1)`), and centering it.  The `margin`
parameter defaults to `10` in the source; `imagesToPdf` calls it without
a margin argument, so the call below passes `10` explicitly. -/
def calculateFitDimensions (imgWidth imgHeight pageWidth pageHeight
    margin : ℚ) : FitPlacement :=
  let maxWidth := pageWidth - margin * 2
  let maxHeight := pageHeight - margin * 2
  let widthRatio := maxWidth / imgWidth
  let heightRatio := maxHeight / imgHeight
  let ratio := min (min widthRatio heightRatio) 1
  let width := imgWidth * ratio
  let height := imgHeight * ratio
  ⟨width, height, (pageWidth - width) / 2, (pageHeight - height) / 2⟩

/-- The page loop of `imagesToPdf` (`src/utils/pdf.ts` lines 96-163),
abstracted over the page size reported by the external jsPDF document
(`pdf.internal.pageSize`).  An empty file list throws
(`No files provided`), modelled as `none`.  Otherwise one page is emitted
per image, in input order (`pdf.addPage()` before every image after the
first), each image placed by `calculateFitDimensions` with the default
`10` margin; the produced placements are returned page by page. -/
def imagesToPdf (pageWidth pageHeight : ℚ) (imgs : List (ℚ × ℚ)) :
    Option (List FitPlacement) :=
  if imgs.isEmpty then none
  else some (imgs.map fun d =>
    calculateFitDimensions d.1 d.2 pageWidth pageHeight 10)

/-- The `Sortable.onEnd` reorder handler of `MultiScan.renderThumbnails`
(`src/QrUpload.ts` lines 1500-1523), list part:
`const [moved] = this.images.splice(evt.oldIndex, 1);`
`this.images.splice(evt.newIndex, 0, moved);`.
`Sortable` only reports indices of existing thumbnails, so `oldIndex` is
always in range; the `match` returns the list unchanged on the
out-of-range case that cannot occur. -/
def reorderPages {α : Type} (l : List α) (oldIndex newIndex : ℕ) :
    List α :=
  match l[oldIndex]? with
  | none => l
  | some moved => (l.eraseIdx oldIndex).insertIdx newIndex moved

/-- The `Sortable.onEnd` reorder handler, selected-index part
(`src/QrUpload.ts` lines 1506-1518): keep the same logical page
selected. -/
def remapSelected (cur oldIndex newIndex : ℕ) : ℕ :=
  if cur = oldIndex then newIndex
  else if oldIndex < cur ∧ cur ≤ newIndex then cur - 1
  else if cur < oldIndex ∧ newIndex ≤ cur then cur + 1
  else cur

/-- The per-session page state of `MultiScan`: the ordered page list and
the index of the currently selected page (`this.images`,
`this.currentImageIndex`). -/
structure MultiScanPages (α : Type) where
  images : List α
  currentImageIndex : ℕ
deriving DecidableEq

/-- `MultiScan.handleImageCapture` (`src/QrUpload.ts` lines 1399-1411):
wrap the file into a page, `this.images.push(imageFile)`, and select it:
`this.currentImageIndex = this.images.length - 1`.  No condition is
checked. -/
def handleImageCapture {α : Type} (ms : MultiScanPages α) (f : α) :
    MultiScanPages α :=
  { images := ms.images ++ [f],
    currentImageIndex := (ms.images ++ [f]).length - 1 }

/-- What `MultiScan.addPage` did besides (not) changing state. -/
inductive AddPageOutcome
  | rejectedWithToast
  | cameraTriggered
deriving DecidableEq

/-- `MultiScan.addPage` (`src/QrUpload.ts` lines 1388-1397):
`maxImages = this.config.imageConfig.maxImages || 10`; if
`this.images.length >= maxImages`, show the limit toast and return;
otherwise click the native camera input.  Either way the page list is
untouched — the append happens only later, in `handleImageCapture`,
when the camera delivers a file. -/
def addPage {α : Type} (maxImages : ℕ) (ms : MultiScanPages α) :
    MultiScanPages α × AddPageOutcome :=
  if maxImages ≤ ms.images.length then (ms, .rejectedWithToast)
  else (ms, .cameraTriggered)

/-- Provenance of a bitmap's pixels.  `src` is a freshly decoded input
image; `canvasRender` is what `render()` paints on the preview canvas
(the image drawn with the given rotation and flips into the fixed
canvas frame) and hence what `canvas.toDataURL()` encodes; `cropMade` is
the `drawImage` of the crop region performed by `applyCrop`; `blank` is
an untouched canvas. -/
inductive Pix
  | blank
  | src (id : ℕ)
  | canvasRender (rot : ℤ) (fx fy : Bool) (p : Pix)
  | cropMade (cx cy cw ch : ℚ) (p : Pix)
deriving DecidableEq, Repr

/-- A bitmap: pixel provenance plus natural pixel dimensions
(`HTMLImageElement.width` / `.height`).  A PNG data URL round-trip
(`toDataURL` then `new Image()`) preserves both, so a data URL is
modelled by the `Img` it decodes to. -/
structure Img where
  pix : Pix
  width : ℕ
  height : ℕ
deriving DecidableEq, Repr

/-- The `EditorState` interface of the ImageEditor file (lines 20-29):
rotation in degrees, flip flags, crop rectangle in natural coordinates of
the current image, and the optional `imageDataUrl` attached to history
snapshots (`undefined` = `none`; it stays `none` on the live
`this.state`). -/
structure EState where
  rotation : ℤ
  flipX : Bool
  flipY : Bool
  cropX : ℚ
  cropY : ℚ
  cropWidth : ℚ
  cropHeight : ℚ
  imageDataUrl : Option Img
deriving DecidableEq, Repr

/-- The container dimensions seen by `calculateFixedCanvasSize`
(`containerWidth` × `containerHeight`, an environment input from the
layout). -/
structure Viewport where
  w : ℚ
  h : ℚ
deriving DecidableEq, Repr

/-- The mutable fields of a `QrImageEditor` instance that the editing
logic reads or writes: `this.state`, `this.history`, `this.historyIndex`,
`this.image`, `this.originalImage`, `this.cropMode`, the canvas (its
existence and its current pixel content) and the display geometry
`this.imageScale` / `this.fixedCanvasWidth` / `this.fixedCanvasHeight`. -/
structure Editor where
  state : EState
  history : List EState
  historyIndex : ℤ
  image : Option Img
  originalImage : Option Img
  cropMode : Bool
  hasCanvas : Bool
  canvasImg : Option Img
  imageScale : ℚ
  fixedCanvasWidth : ℚ
  fixedCanvasHeight : ℚ
deriving DecidableEq, Repr

/-- `this.canvas.toDataURL('image/png')` as used by `saveState`: `none`
when the canvas element does not exist yet, otherwise the canvas content
(a blank `0 × 0` image if nothing was rendered). -/
def canvasDataUrl (e : Editor) : Option Img :=
  if e.hasCanvas then some (e.canvasImg.getD ⟨Pix.blank, 0, 0⟩) else none

/-- The snapshot `saveState` pushes: `{...this.state}` with
`imageDataUrl` set from the canvas when the canvas exists (ImageEditor
file lines 731-737: "Always include image data for proper history
restoration"). -/
def newSnapshot (e : Editor) : EState :=
  { e.state with imageDataUrl := canvasDataUrl e }

/-- `QrImageEditor.saveState` (lines 725-752): prune the redo branch when
`historyIndex < history.length - 1` (`slice(0, historyIndex + 1)`), push
the new snapshot, increment the index; then cap the history at 50 by
`shift()`ing the oldest entry and decrementing the index. -/
def saveState (e : Editor) : Editor :=
  let hist :=
    if e.historyIndex < (e.history.length : ℤ) - 1 then
      e.history.take (e.historyIndex + 1).toNat
    else e.history
  let hist2 := hist ++ [newSnapshot e]
  if 50 < (hist2.length : ℤ) then
    { e with history := hist2.tail, historyIndex := e.historyIndex + 1 - 1 }
  else
    { e with history := hist2, historyIndex := e.historyIndex + 1 }

/-- `QrImageEditor.calculateFixedCanvasSize` (lines 861-908): with a
canvas and an image present, fit the image into the container at 95%,
preserving aspect ratio, fixing the display size and
`imageScale = displayWidth / image.width`; then, if the crop size is
still unset (`cropWidth === 0 || cropHeight === 0`), initialise the crop
rectangle to the full image. -/
def calculateFixedCanvasSize (vp : Viewport) (e : Editor) : Editor :=
  match e.hasCanvas, e.image with
  | true, some img =>
      let imgRatio := (img.width : ℚ) / (img.height : ℚ)
      let containerRatio := vp.w / vp.h
      let dw : ℚ :=
        if containerRatio < imgRatio then vp.w * (95 / 100)
        else vp.h * (95 / 100) * imgRatio
      let dh : ℚ :=
        if containerRatio < imgRatio then vp.w * (95 / 100) / imgRatio
        else vp.h * (95 / 100)
      let e2 := { e with
        fixedCanvasWidth := dw
        fixedCanvasHeight := dh
        imageScale := dw / (img.width : ℚ) }
      if e2.state.cropWidth = 0 ∨ e2.state.cropHeight = 0 then
        { e2 with state := { e2.state with
            cropX := 0
            cropY := 0
            cropWidth := (img.width : ℚ)
            cropHeight := (img.height : ℚ) } }
      else e2
  | _, _ => e

/-- `QrImageEditor.updateCropOverlay` (lines 961-1044), state part (lines
971-991): constrain the crop state to the current image's boundaries —
origin into `[0, max(0, side - 50)]`, sizes into
`[50, side - origin]` (the `maxCropWidth`/`maxCropHeight` bounds are
computed from the origin *before* it is constrained).  The remainder of
the function only positions DOM nodes and does not touch `this.state`. -/
def updateCropOverlay (e : Editor) : Editor :=
  match e.image with
  | some img =>
      if e.hasCanvas then
        { e with state := { e.state with
            cropX := max 0 (min e.state.cropX
              (max 0 ((img.width : ℚ) - 50))),
            cropY := max 0 (min e.state.cropY
              (max 0 ((img.height : ℚ) - 50))),
            cropWidth := max 50 (min e.state.cropWidth
              ((img.width : ℚ) - e.state.cropX)),
            cropHeight := max 50 (min e.state.cropHeight
              ((img.height : ℚ) - e.state.cropY)) } }
      else e
  | none => e

/-- What `render()` paints: the whole image drawn with the current
rotation and flips into the fixed-size canvas (the fractional display
size truncated by the canvas `width`/`height` attributes). -/
def paintCanvas (e : Editor) (img : Img) : Img :=
  ⟨Pix.canvasRender e.state.rotation e.state.flipX e.state.flipY img.pix,
    (⌊e.fixedCanvasWidth⌋).toNat, (⌊e.fixedCanvasHeight⌋).toNat⟩

/-- `QrImageEditor.render` (lines 910-959): with canvas and image
present, repaint the canvas; when crop mode is active, finish with
`updateCropOverlay()`. -/
def renderStep (e : Editor) : Editor :=
  match e.image with
  | some img =>
      if e.hasCanvas then
        let e2 := { e with canvasImg := some (paintCanvas e img) }
        if e2.cropMode then updateCropOverlay e2 else e2
      else e
  | none => e

/-- `QrImageEditor.updateUIFromState` (lines 832-859): slider and
flip-tab updates are DOM-only; the only state effect is the deferred
`updateCropOverlay()` when crop mode is active. -/
def updateUIFromState (e : Editor) : Editor :=
  if e.cropMode then updateCropOverlay e else e

/-- `QrImageEditor.openEditor` (lines 128-161): load the image, remember
it as `originalImage`, zero the crop origin, push the initial snapshot
(before the canvas exists, so it carries no `imageDataUrl`), enable crop
mode, create the UI (canvas now exists), compute the fixed canvas size
(which initialises the crop rectangle to the full image) and render. -/
def openEditor (vp : Viewport) (img : Img) : Editor :=
  let e0 : Editor := {
    state := ⟨0, false, false, 0, 0, 0, 0, none⟩,
    history := [], historyIndex := -1,
    image := some img, originalImage := some img,
    cropMode := false, hasCanvas := false, canvasImg := none,
    imageScale := 1, fixedCanvasWidth := 0, fixedCanvasHeight := 0 }
  let e1 := saveState e0
  let e2 := { e1 with cropMode := true, hasCanvas := true }
  renderStep (calculateFixedCanvasSize vp e2)

/-- `QrImageEditor.toggleFlip` (lines 106-111) through
`updateState(updates, true, true)` (lines 97-101): flip the requested
axis, `saveState()` (so the pushed snapshot captures the canvas as it
was *before* this flip is rendered), then `render()`. -/
def toggleFlipStep (horizontal : Bool) (e : Editor) : Editor :=
  let st := if horizontal then { e.state with flipX := !e.state.flipX }
    else { e.state with flipY := !e.state.flipY }
  renderStep (saveState { e with state := st })

/-- JavaScript `a || b` on numbers: `b` when `a` is `0` (falsy). -/
def jsOr (q d : ℚ) : ℚ := if q = 0 then d else q

/-- `this.image?.width || 100` in `undo`/`redo`'s state validation. -/
def widthFallback (e : Editor) : ℚ :=
  match e.image with
  | some img => jsOr (img.width : ℚ) 100
  | none => 100

/-- `this.image?.height || 100` in `undo`/`redo`'s state validation. -/
def heightFallback (e : Editor) : ℚ :=
  match e.image with
  | some img => jsOr (img.height : ℚ) 100
  | none => 100

/-- The state validation both `undo` (lines 761-769) and `redo`
(lines 801-809) apply to the target snapshot: drop `imageDataUrl`,
floor the origin at 0, floor the sizes at 50 with the live image's
dimensions as fallback for falsy stored values. -/
def validateState (e : Editor) (t : EState) : EState :=
  { rotation := t.rotation, flipX := t.flipX, flipY := t.flipY,
    cropX := max 0 (jsOr t.cropX 0),
    cropY := max 0 (jsOr t.cropY 0),
    cropWidth := max 50 (jsOr t.cropWidth (widthFallback e)),
    cropHeight := max 50 (jsOr t.cropHeight (heightFallback e)),
    imageDataUrl := none }

/-- `QrImageEditor.restoreImageFromDataUrl` (lines 1046-1063): decode the
data URL into the live image, recompute the canvas size, update the UI,
render, and (when crop mode is active) refresh the crop overlay once
more from the deferred timeout. -/
def restoreImageFromDataUrl (vp : Viewport) (b : Img) (e : Editor) :
    Editor :=
  let e2 := calculateFixedCanvasSize vp { e with image := some b }
  let e3 := renderStep (updateUIFromState e2)
  if e3.cropMode then updateCropOverlay e3 else e3

/-- `QrImageEditor.undo` (lines 754-792): no-op at the beginning of
history; otherwise decrement the index, install the validated target
state, and restore the image — from the snapshot's data URL when present,
else fall back to `originalImage` followed by a size recompute, UI
update, render and deferred overlay refresh.  (The inner `none` arm of
the lookup is unreachable: the decremented index is nonnegative and
below the history length whenever the guard holds.) -/
def undoStep (vp : Viewport) (e : Editor) : Editor :=
  if 0 < e.historyIndex then
    match e.history[(e.historyIndex - 1).toNat]? with
    | some t =>
        let e2 := { e with
          historyIndex := e.historyIndex - 1
          state := validateState e t }
        match t.imageDataUrl with
        | some b => restoreImageFromDataUrl vp b e2
        | none =>
            let e3 := calculateFixedCanvasSize vp
              { e2 with image := e2.originalImage }
            let e4 := renderStep (updateUIFromState e3)
            if e4.cropMode then updateCropOverlay e4 else e4
    | none => e
  else e

/-- `QrImageEditor.redo` (lines 794-830): no-op at the end of history;
otherwise increment the index, install the validated target state, and —
when the snapshot carries a data URL — restore the image from it;
otherwise just update the UI and render (the live image is kept). -/
def redoStep (vp : Viewport) (e : Editor) : Editor :=
  if e.historyIndex < (e.history.length : ℤ) - 1 then
    match e.history[(e.historyIndex + 1).toNat]? with
    | some t =>
        let e2 := { e with
          historyIndex := e.historyIndex + 1
          state := validateState e t }
        match t.imageDataUrl with
        | some b => restoreImageFromDataUrl vp b e2
        | none =>
            let e3 := renderStep (updateUIFromState e2)
            if e3.cropMode then updateCropOverlay e3 else e3
    | none => e
  else e

/-- The identity `EditorState` installed by `resetAll`: no rotation, no
flips, crop equal to the full original image. -/
def identityState (orig : Img) : EState :=
  ⟨0, false, false, 0, 0, (orig.width : ℚ), (orig.height : ℚ), none⟩

/-- `QrImageEditor.resetAll` (lines 561-594): requires `originalImage`;
restore it as the live image, reset the state to the identity (full
original crop, no rotation, no flips), recompute the canvas size, return
to history index 0 and overwrite entry 0 with a copy of the (identity)
state — subsequent entries are *not* cleared — then update the UI and
render. -/
def resetAllStep (vp : Viewport) (e : Editor) : Editor :=
  match e.originalImage with
  | none => e
  | some orig =>
      let e2 := calculateFixedCanvasSize vp { e with
        image := some orig
        state := identityState orig }
      let e3 := { e2 with
        historyIndex := 0
        history := e2.history.set 0 e2.state }
      renderStep (updateUIFromState e3)

/-- `QrImageEditor.switchTab` (lines 657-695): set
`cropMode = (tab === 'crop')` and toggle overlay/tab visibility; no
render and no other state change. -/
def switchTab (toCrop : Bool) (e : Editor) : Editor :=
  { e with cropMode := toCrop }

/-- The bitmap `applyCrop` builds: the crop region of the live image
drawn into a temporary canvas of the crop's size (fractional sizes
truncated by the canvas size attributes) and round-tripped through a PNG
data URL. -/
def croppedImage (e : Editor) (img : Img) : Img :=
  ⟨Pix.cropMade e.state.cropX e.state.cropY e.state.cropWidth
      e.state.cropHeight img.pix,
    (⌊e.state.cropWidth⌋).toNat, (⌊e.state.cropHeight⌋).toNat⟩

/-- `QrImageEditor.applyCrop` (lines 596-655) together with its
`croppedImage.onload` continuation: draw the crop region of the live
image into a canvas of the crop's size (fractional sizes truncated by
the canvas size attributes), make the result the live image, reset the
crop rectangle to the new image's full bounds, recompute the canvas
size, push a snapshot (which, the canvas existing, captures the *current*
canvas render — `saveState()` runs before the new image is rendered) and
render. -/
def applyCropStep (vp : Viewport) (e : Editor) : Editor :=
  match e.image with
  | none => e
  | some img =>
      let newImg := croppedImage e img
      let e2 := calculateFixedCanvasSize vp { e with
        image := some newImg
        state := { e.state with
          cropX := 0
          cropY := 0
          cropWidth := (newImg.width : ℚ)
          cropHeight := (newImg.height : ℚ) } }
      renderStep (saveState e2)

/-- The output dimensions of `QrImageEditor.handleSave` (lines
1065-1157): `none` when no image is loaded; otherwise the final canvas
is sized `Math.round(cropWidth) × Math.round(cropHeight)` and the saved
file has exactly these dimensions. -/
def handleSaveDims (e : Editor) : Option (ℕ × ℕ) :=
  match e.image with
  | none => none
  | some _ =>
      some ((round e.state.cropWidth).toNat,
        (round e.state.cropHeight).toNat)

lemma clamp0_nonneg (a b : ℚ) : 0 ≤ max 0 (min a b) := le_max_left 0 _

lemma clamp0_le (a b : ℚ) (h : 0 ≤ b) : max 0 (min a b) ≤ b :=
  max_le h (min_le_right a b)

lemma clamp50_ge (a b : ℚ) : 50 ≤ max 50 (min a b) := le_max_left _ _

lemma clamp50_le (a b : ℚ) (h : 50 ≤ b) : max 50 (min a b) ≤ b :=
  max_le h (min_le_right a b)

/-- The `MultiScan` final constraint block establishes the crop invariant
outright, for any incoming values, as soon as the image is at least
`50 × 50`. -/
lemma msFinalClamp_invariant (W H : ℚ) (hW : 50 ≤ W) (hH : 50 ≤ H)
    (base : CropRect) : cropInvariant W H (msFinalClamp W H base) := by
  have hx1 : 0 ≤ max 0 (min base.x (W - 50)) := clamp0_nonneg _ _
  have hx2 : max 0 (min base.x (W - 50)) ≤ W - 50 :=
    clamp0_le _ _ (by linarith)
  have hy1 : 0 ≤ max 0 (min base.y (H - 50)) := clamp0_nonneg _ _
  have hy2 : max 0 (min base.y (H - 50)) ≤ H - 50 :=
    clamp0_le _ _ (by linarith)
  refine ⟨hx1, hy1, clamp50_ge _ _, clamp50_ge _ _, ?_, ?_⟩
  · have := clamp50_le base.w (W - max 0 (min base.x (W - 50)))
      (by linarith)
    simpa [msFinalClamp] using by linarith
  · have := clamp50_le base.h (H - max 0 (min base.y (H - 50)))
      (by linarith)
    simpa [msFinalClamp] using by linarith

/-- The editor's per-handle computation preserves the crop invariant,
given the session agreement on unwritten fields. -/
lemma onCropDragHandle_invariant (W H : ℚ) (start cur : CropRect)
    (hd : Handle) (dx dy : ℚ) (hinv : cropInvariant W H start)
    (hag : handleAgrees hd start cur) :
    cropInvariant W H (onCropDragHandle W H start hd dx dy cur) := by
  obtain ⟨hx, hy, hw, hh, hxw, hyh⟩ := hinv
  have hWx : 50 ≤ W - start.x := by linarith
  have hHy : 50 ≤ H - start.y := by linarith
  have hnx1 : 0 ≤ max 0 (min (start.x + dx) (start.x + start.w - 50)) :=
    clamp0_nonneg _ _
  have hnx2 : max 0 (min (start.x + dx) (start.x + start.w - 50)) ≤
      start.x + start.w - 50 := clamp0_le _ _ (by linarith)
  have hny1 : 0 ≤ max 0 (min (start.y + dy) (start.y + start.h - 50)) :=
    clamp0_nonneg _ _
  have hny2 : max 0 (min (start.y + dy) (start.y + start.h - 50)) ≤
      start.y + start.h - 50 := clamp0_le _ _ (by linarith)
  have hnw1 : 50 ≤ max 50 (min (start.w + dx) (W - start.x)) :=
    clamp50_ge _ _
  have hnw2 : max 50 (min (start.w + dx) (W - start.x)) ≤ W - start.x :=
    clamp50_le _ _ hWx
  have hnh1 : 50 ≤ max 50 (min (start.h + dy) (H - start.y)) :=
    clamp50_ge _ _
  have hnh2 : max 50 (min (start.h + dy) (H - start.y)) ≤ H - start.y :=
    clamp50_le _ _ hHy
  cases hd with
  | nw =>
      exact ⟨hnx1, hny1, by simp only [onCropDragHandle]; linarith,
        by simp only [onCropDragHandle]; linarith,
        by simp only [onCropDragHandle]; linarith,
        by simp only [onCropDragHandle]; linarith⟩
  | ne =>
      rw [handleAgrees] at hag
      exact ⟨by simp only [onCropDragHandle]; linarith, hny1,
        by simpa only [onCropDragHandle] using hnw1,
        by simp only [onCropDragHandle]; linarith,
        by simp only [onCropDragHandle]; linarith,
        by simp only [onCropDragHandle]; linarith⟩
  | sw =>
      rw [handleAgrees] at hag
      exact ⟨hnx1, by simp only [onCropDragHandle]; linarith,
        by simp only [onCropDragHandle]; linarith,
        by simpa only [onCropDragHandle] using hnh1,
        by simp only [onCropDragHandle]; linarith,
        by simp only [onCropDragHandle]; linarith⟩
  | se =>
      obtain ⟨hax, hay⟩ := hag
      exact ⟨by simp only [onCropDragHandle]; linarith,
        by simp only [onCropDragHandle]; linarith,
        by simpa only [onCropDragHandle] using hnw1,
        by simpa only [onCropDragHandle] using hnh1,
        by simp only [onCropDragHandle]; linarith,
        by simp only [onCropDragHandle]; linarith⟩
  | n =>
      obtain ⟨hax, haw⟩ := hag
      exact ⟨by simp only [onCropDragHandle]; linarith, hny1,
        by simp only [onCropDragHandle]; linarith,
        by simp only [onCropDragHandle]; linarith,
        by simp only [onCropDragHandle]; linarith,
        by simp only [onCropDragHandle]; linarith⟩
  | s =>
      obtain ⟨hax, hay, haw⟩ := hag
      exact ⟨by simp only [onCropDragHandle]; linarith,
        by simp only [onCropDragHandle]; linarith,
        by simp only [onCropDragHandle]; linarith,
        by simpa only [onCropDragHandle] using hnh1,
        by simp only [onCropDragHandle]; linarith,
        by simp only [onCropDragHandle]; linarith⟩
  | e =>
      obtain ⟨hax, hay, hah⟩ := hag
      exact ⟨by simp only [onCropDragHandle]; linarith,
        by simp only [onCropDragHandle]; linarith,
        by simpa only [onCropDragHandle] using hnw1,
        by simp only [onCropDragHandle]; linarith,
        by simp only [onCropDragHandle]; linarith,
        by simp only [onCropDragHandle]; linarith⟩
  | w =>
      obtain ⟨hay, hah⟩ := hag
      exact ⟨hnx1, by simp only [onCropDragHandle]; linarith,
        by simp only [onCropDragHandle]; linarith,
        by simp only [onCropDragHandle]; linarith,
        by simp only [onCropDragHandle]; linarith,
        by simp only [onCropDragHandle]; linarith⟩

/-- The editor's per-handle computation never writes the pass-through
fields, so session agreement is preserved across a move event. -/
lemma onCropDragHandle_agrees (W H : ℚ) (start cur : CropRect)
    (hd : Handle) (dx dy : ℚ) (hag : handleAgrees hd start cur) :
    handleAgrees hd start (onCropDragHandle W H start hd dx dy cur) := by
  cases hd with
  | nw => exact trivial
  | ne => exact hag
  | sw => exact hag
  | se => exact hag
  | n => exact hag
  | s => exact hag
  | e => exact hag
  | w => exact hag

/-- Claim C1: for every handle drag (any of the eight handles and any
pointer delta however large), if the crop rectangle at drag start
satisfies the invariant (`x ≥ 0`, `y ≥ 0`, `width ≥ 50`, `height ≥ 50`,
`x + width ≤ imageWidth`, `y + height ≤ imageHeight`) — and, across the
session, the fields the handle never writes still hold their start
values — then the crop rectangle produced by the drag-move computation
again satisfies `width, height ≥ 50` and lies within
`[0, imageWidth] × [0, imageHeight]`; this holds for both
`QrImageEditor.onCropDrag` and `MultiScan.onCropDrag`, and the session
agreement is itself preserved, so the invariant holds after every move
of the drag. -/
theorem c1_handle_drag_preserves_invariant (W H : ℚ) (start cur : CropRect)
    (hd : Handle) (dx dy : ℚ) (hinv : cropInvariant W H start)
    (hag : handleAgrees hd start cur) :
    cropInvariant W H (onCropDragHandle W H start hd dx dy cur) ∧
    handleAgrees hd start (onCropDragHandle W H start hd dx dy cur) ∧
    cropInvariant W H (msOnCropDragHandle W H start hd dx dy) := by
  obtain ⟨hx, hy, hw, hh, hxw, hyh⟩ := hinv
  exact ⟨onCropDragHandle_invariant W H start cur hd dx dy
      ⟨hx, hy, hw, hh, hxw, hyh⟩ hag,
    onCropDragHandle_agrees W H start cur hd dx dy hag,
    msFinalClamp_invariant W H (by linarith) (by linarith) _⟩

/-- Witness for C1: the spec scenario — image `1000 × 800`, start crop
`{0, 0, 1000, 800}`, `nw` handle dragged by natural delta `(+100, +50)` —
satisfies the hypotheses, and the resulting rectangle (which evaluates to
`{100, 50, 900, 750}`) satisfies the invariant. -/
theorem c1_handle_drag_preserves_invariant_witness :
    cropInvariant 1000 800
      (onCropDragHandle 1000 800 ⟨0, 0, 1000, 800⟩ Handle.nw 100 50
        ⟨0, 0, 1000, 800⟩) ∧
    cropInvariant 1000 800
      (msOnCropDragHandle 1000 800 ⟨0, 0, 1000, 800⟩ Handle.nw 100 50) :=
  ⟨(c1_handle_drag_preserves_invariant 1000 800 ⟨0, 0, 1000, 800⟩
      ⟨0, 0, 1000, 800⟩ Handle.nw 100 50 (by norm_num [cropInvariant])
      trivial).1,
   (c1_handle_drag_preserves_invariant 1000 800 ⟨0, 0, 1000, 800⟩
      ⟨0, 0, 1000, 800⟩ Handle.nw 100 50 (by norm_num [cropInvariant])
      trivial).2.2⟩

/-! ### Page composition (src/utils/pdf.ts) -/

/-- Claim C8: for every non-empty ordered list of images (of positive
natural sizes), composing them into a document produces exactly one page
per image, in input order; page `i` holds image `i` scaled by the factor
`min(maxWidth / imgWidth, maxHeight / imgHeight, 1)` — where
`maxWidth`/`maxHeight` are the page size minus the `10`-unit margins on
both sides — hence scaled down only (never up), with aspect ratio
preserved, and centered on its page. -/
theorem c8_compose_one_centered_page_per_image
    (pageWidth pageHeight : ℚ) (imgs : List (ℚ × ℚ))
    (hne : imgs ≠ [])
    (hpos : ∀ d ∈ imgs, 0 < d.1 ∧ 0 < d.2) :
    ∃ pl, imagesToPdf pageWidth pageHeight imgs = some pl ∧
      pl.length = imgs.length ∧
      ∀ (i : ℕ) (d : ℚ × ℚ), imgs[i]? = some d →
        ∃ p, pl[i]? = some p ∧
          p = calculateFitDimensions d.1 d.2 pageWidth pageHeight 10 ∧
          p.width = d.1 * min (min ((pageWidth - 10 * 2) / d.1)
            ((pageHeight - 10 * 2) / d.2)) 1 ∧
          p.height = d.2 * min (min ((pageWidth - 10 * 2) / d.1)
            ((pageHeight - 10 * 2) / d.2)) 1 ∧
          p.width ≤ d.1 ∧ p.height ≤ d.2 ∧
          p.width * d.2 = p.height * d.1 ∧
          p.x = (pageWidth - p.width) / 2 ∧
          p.y = (pageHeight - p.height) / 2 := by
  refine ⟨imgs.map fun d =>
    calculateFitDimensions d.1 d.2 pageWidth pageHeight 10, ?_, by simp, ?_⟩
  · simp [imagesToPdf, hne]
  · intro i d hd
    obtain ⟨hw, hh⟩ := hpos d (List.getElem?_mem hd)
    have hr1 : min (min ((pageWidth - 10 * 2) / d.1)
        ((pageHeight - 10 * 2) / d.2)) 1 ≤ 1 := min_le_right _ _
    refine ⟨calculateFitDimensions d.1 d.2 pageWidth pageHeight 10,
      by simp [List.getElem?_map, hd], rfl, rfl, rfl, ?_, ?_, ?_, rfl, rfl⟩
    · exact mul_le_of_le_one_right (le_of_lt hw) hr1
    · exact mul_le_of_le_one_right (le_of_lt hh) hr1
    · show d.1 * _ * d.2 = d.2 * _ * d.1
      ring

/-- Witness for C8, on the spec scenario: two pages of natural size
`1000 × 800` and `800 × 1000` composed onto `210 × 297` pages with the
default 10-unit margin produce exactly two pages. -/
theorem c8_compose_one_centered_page_per_image_witness :
    ∃ pl, imagesToPdf 210 297 [(1000, 800), (800, 1000)] = some pl ∧
      pl.length = 2 := by
  obtain ⟨pl, h1, h2, -⟩ :=
    c8_compose_one_centered_page_per_image 210 297 [(1000, 800), (800, 1000)]
      (by simp)
      (by intro d hd; fin_cases hd <;> norm_num)
  exact ⟨pl, h1, by simpa using h2⟩

/-! ### Multi-page session: reorder and capture (src/QrUpload.ts) -/

/-- Every list is a permutation of any one of its elements consed onto
the list with that element erased. -/
lemma perm_getElem_cons_eraseIdx {α : Type} :
    ∀ (l : List α) (i : ℕ) (h : i < l.length),
      l.Perm (l[i] :: l.eraseIdx i)
  | _ :: _, 0, _ => List.Perm.refl _
  | a :: t, i + 1, h => by
      have hi : i < t.length := by simpa using h
      have ih := perm_getElem_cons_eraseIdx t i hi
      have h1 : (a :: t).Perm (a :: t[i] :: t.eraseIdx i) := ih.cons a
      have h2 : (a :: t[i] :: t.eraseIdx i).Perm
          (t[i] :: a :: t.eraseIdx i) := List.Perm.swap _ _ _
      have h3 : (a :: t)[i + 1] = t[i] := by simp
      rw [show (a :: t).eraseIdx (i + 1) = a :: t.eraseIdx i from rfl, h3]
      exact h1.trans h2

/-- Index formula for `List.insertIdx`, in `getElem?` form. -/
lemma getElem?_insertIdx_formula {α : Type} :
    ∀ (n : ℕ) (m : List α) (x : α) (p : ℕ), n ≤ m.length →
      (m.insertIdx n x)[p]? =
        if p < n then m[p]? else if p = n then some x else m[p - 1]? := by
  intro n
  induction n with
  | zero =>
      intro m x p _
      rw [List.insertIdx_zero]
      cases p with
      | zero => simp
      | succ q => simp
  | succ n ih =>
      intro m x p hn
      cases m with
      | nil => simp at hn
      | cons a t =>
          rw [List.insertIdx_succ_cons]
          cases p with
          | zero => simp
          | succ q =>
              have hq := ih t x q (by simpa using hn)
              rw [List.getElem?_cons_succ, hq]
              by_cases h1 : q < n
              · rw [if_pos h1, if_pos (by omega), List.getElem?_cons_succ]
              · rw [if_neg h1]
                by_cases h2 : q = n
                · rw [if_pos h2, if_neg (by omega), if_pos (by omega)]
                · rw [if_neg h2, if_neg (by omega), if_neg (by omega)]
                  have hq0 : q ≠ 0 := by omega
                  obtain ⟨r, rfl⟩ := Nat.exists_eq_succ_of_ne_zero hq0
                  rw [show r + 1 + 1 - 1 = r + 1 from rfl,
                    List.getElem?_cons_succ,
                    show r + 1 - 1 = r from rfl]

/-- Index formula for `List.eraseIdx`, in `getElem?` form. -/
lemma getElem?_eraseIdx_formula {α : Type} (l : List α) (i : ℕ)
    (hi : i < l.length) (p : ℕ) :
    (l.eraseIdx i)[p]? = if p < i then l[p]? else l[p + 1]? := by
  have hlen : (l.eraseIdx i).length + 1 = l.length :=
    List.length_eraseIdx_add_one hi
  by_cases hp : p < (l.eraseIdx i).length
  · rcases Nat.lt_or_ge p i with h | h
    · rw [if_pos h, List.getElem?_eq_getElem hp,
        List.getElem?_eq_getElem (show p < l.length by omega)]
      exact congrArg some (List.getElem_eraseIdx_of_lt l i p hp h)
    · rw [if_neg (by omega), List.getElem?_eq_getElem hp,
        List.getElem?_eq_getElem (show p + 1 < l.length by omega)]
      exact congrArg some (List.getElem_eraseIdx_of_ge l i p hp h)
  · rcases Nat.lt_or_ge p i with h | h
    · exfalso
      omega
    · rw [List.getElem?_eq_none (by omega), if_neg (by omega),
        List.getElem?_eq_none (by omega)]

/-- Reordering moves the page at `oldIndex` to position `newIndex` and
only shifts the others: position `remapSelected k` of the result holds
the page that was at position `k`. -/
lemma reorderPages_getElem {α : Type} (l : List α) (oldIndex newIndex : ℕ)
    (ho : oldIndex < l.length) (hn : newIndex < l.length) (k : ℕ)
    (_hk : k < l.length) :
    (reorderPages l oldIndex newIndex)[remapSelected k oldIndex newIndex]? =
      l[k]? := by
  have hlen : (l.eraseIdx oldIndex).length + 1 = l.length :=
    List.length_eraseIdx_add_one ho
  have hmoved : l[oldIndex]? = some l[oldIndex] := List.getElem?_eq_getElem ho
  have hre : reorderPages l oldIndex newIndex =
      (l.eraseIdx oldIndex).insertIdx newIndex l[oldIndex] := by
    rw [reorderPages, hmoved]
  rw [hre, getElem?_insertIdx_formula _ _ _ _ (by omega), remapSelected]
  by_cases hko : k = oldIndex
  · rw [if_pos hko, if_neg (lt_irrefl newIndex), if_pos rfl, hko, hmoved]
  · rw [if_neg hko]
    by_cases h1 : oldIndex < k ∧ k ≤ newIndex
    · rw [if_pos h1, if_pos (by omega),
        getElem?_eraseIdx_formula _ _ ho, if_neg (by omega)]
      congr 1
      omega
    · rw [if_neg h1]
      by_cases h2 : k < oldIndex ∧ newIndex ≤ k
      · rw [if_pos h2, if_neg (by omega), if_neg (by omega),
          show k + 1 - 1 = k from rfl,
          getElem?_eraseIdx_formula _ _ ho, if_pos (by omega)]
      · rw [if_neg h2]
        rcases Nat.lt_or_ge k oldIndex with hk1 | hk1
        · rw [if_pos (by omega), getElem?_eraseIdx_formula _ _ ho,
            if_pos hk1]
        · rw [if_neg (by omega), if_neg (by omega),
            getElem?_eraseIdx_formula _ _ ho, if_neg (by omega)]
          congr 1
          omega

/-- Claim C9: for every page list and every reorder moving the page at
index `i` to index `j` (both in range): the multiset of pages — in
particular the set of page ids — is preserved, the moved page ends up at
position `j`, every other page sits at its accordingly shifted position,
and the currently-selected index is re-mapped so that the same logical
page remains selected after the reorder. -/
theorem c9_reorder_preserves_pages_and_selection {α : Type} (l : List α)
    (oldIndex newIndex cur : ℕ) (ho : oldIndex < l.length)
    (hn : newIndex < l.length) (hc : cur < l.length) :
    (reorderPages l oldIndex newIndex).Perm l ∧
    (reorderPages l oldIndex newIndex).length = l.length ∧
    (reorderPages l oldIndex newIndex)[newIndex]? = l[oldIndex]? ∧
    remapSelected cur oldIndex newIndex < l.length ∧
    (∀ k, k < l.length →
      (reorderPages l oldIndex newIndex)[remapSelected k oldIndex newIndex]?
        = l[k]?) := by
  have hlen : (l.eraseIdx oldIndex).length + 1 = l.length :=
    List.length_eraseIdx_add_one ho
  have hmoved : l[oldIndex]? = some l[oldIndex] := List.getElem?_eq_getElem ho
  have hre : reorderPages l oldIndex newIndex =
      (l.eraseIdx oldIndex).insertIdx newIndex l[oldIndex] := by
    rw [reorderPages, hmoved]
  have hperm : (reorderPages l oldIndex newIndex).Perm l := by
    rw [hre]
    exact (List.perm_insertIdx _ _ (by omega)).trans
      (perm_getElem_cons_eraseIdx l oldIndex ho).symm
  refine ⟨hperm, hperm.length_eq, ?_, ?_, fun k hk =>
    reorderPages_getElem l oldIndex newIndex ho hn k hk⟩
  · have := reorderPages_getElem l oldIndex newIndex ho hn oldIndex ho
    rwa [remapSelected, if_pos rfl] at this
  · rw [remapSelected]
    split
    · omega
    · split
      · omega
      · split <;> omega

/-- Witness for C9: moving index `0` to index `2` in a three-page list
`[10, 20, 30]` with page `1` selected. -/
theorem c9_reorder_preserves_pages_and_selection_witness :
    (reorderPages [10, 20, 30] 0 2).Perm [10, 20, 30] ∧
    (reorderPages [10, 20, 30] 0 2).length = 3 ∧
    (reorderPages [10, 20, 30] 0 2)[(2 : ℕ)]? = some 10 ∧
    remapSelected 1 0 2 < 3 := by
  obtain ⟨h1, h2, h3, h4, -⟩ :=
    c9_reorder_preserves_pages_and_selection [10, 20, 30] 0 2 1
      (by norm_num) (by norm_num) (by norm_num)
  exact ⟨h1, by simpa using h2, by simpa using h3, by simpa using h4⟩

/-- Claim C10 (implicit): every call to `MultiScan.handleImageCapture`
unconditionally appends a new page and selects it
(`currentImageIndex = length - 1`), with no check against the configured
maximum page count; the maximum is enforced only inside `addPage` before
the camera is triggered (which rejects with a toast and no state change),
so the page list length can exceed the configured maximum via the public
capture path. -/
theorem c10_capture_bypasses_max_pages {α : Type} (ms : MultiScanPages α)
    (f : α) (maxImages : ℕ) :
    (handleImageCapture ms f).images = ms.images ++ [f] ∧
    (handleImageCapture ms f).images.length = ms.images.length + 1 ∧
    (handleImageCapture ms f).currentImageIndex =
      (handleImageCapture ms f).images.length - 1 ∧
    (maxImages ≤ ms.images.length →
      addPage maxImages ms = (ms, .rejectedWithToast)) ∧
    (maxImages ≤ ms.images.length →
      maxImages < (handleImageCapture ms f).images.length) := by
  refine ⟨rfl, by simp [handleImageCapture], rfl, ?_, ?_⟩
  · intro h
    simp [addPage, h]
  · intro h
    simp only [handleImageCapture, List.length_append, List.length_cons,
      List.length_nil]
    omega

/-- Witness for C10: a session already holding `maxImages = 2` pages —
`addPage` rejects, yet `handleImageCapture` grows the list to 3 > 2. -/
theorem c10_capture_bypasses_max_pages_witness :
    2 ≤ ([5, 6] : List ℕ).length ∧
    addPage 2 (MultiScanPages.mk [5, 6] 1) =
      (MultiScanPages.mk [5, 6] 1, .rejectedWithToast) ∧
    2 < (handleImageCapture (MultiScanPages.mk [5, 6] 1) 7).images.length := by
  have h := c10_capture_bypasses_max_pages (MultiScanPages.mk [5, 6] 1) 7 2
  exact ⟨by norm_num, h.2.2.2.1 (by norm_num), h.2.2.2.2 (by norm_num)⟩

/-- Claim C7: every drag-move computation (resize or move, in both
`QrImageEditor.onCropDrag` and `MultiScan.onCropDrag`) is idempotent —
processing the same move event twice yields the same crop rectangle as
processing it once — and, under the drag-session agreement with the start
snapshot, it is a pure function of the crop rectangle captured at drag
start plus the total delta (the live state contributes nothing beyond the
fields pinned to their start values). -/
theorem c7_drag_move_idempotent_pure (W H : ℚ) (start cur : CropRect)
    (t : DragType) (dx dy : ℚ) :
    onCropDrag W H start t dx dy (onCropDrag W H start t dx dy cur) =
      onCropDrag W H start t dx dy cur ∧
    msOnCropDrag W H start t dx dy (msOnCropDrag W H start t dx dy cur) =
      msOnCropDrag W H start t dx dy cur ∧
    (dragAgrees t start cur →
      onCropDrag W H start t dx dy cur = onCropDrag W H start t dx dy start ∧
      msOnCropDrag W H start t dx dy cur =
        msOnCropDrag W H start t dx dy start) := by
  refine ⟨?_, ?_, ?_⟩
  · cases t with
    | handle hd => cases hd <;> rfl
    | move => rfl
  · cases t with
    | handle hd => cases hd <;> rfl
    | move => rfl
  · intro hag
    cases t with
    | handle hd =>
        cases hd <;>
          · obtain ⟨r1, r2, r3, r4⟩ := cur
            simp only [handleAgrees, dragAgrees] at hag
            first
            | (obtain ⟨h1, h2, h3⟩ := hag; subst h1; subst h2; subst h3;
                exact ⟨rfl, rfl⟩)
            | (obtain ⟨h1, h2⟩ := hag; subst h1; subst h2; exact ⟨rfl, rfl⟩)
            | (subst hag; exact ⟨rfl, rfl⟩)
            | exact ⟨rfl, rfl⟩
    | move =>
        obtain ⟨r1, r2, r3, r4⟩ := cur
        obtain ⟨h1, h2⟩ := hag
        simp only at h1 h2
        subst h1; subst h2
        exact ⟨rfl, rfl⟩

/-! ### The QrImageEditor state machine (ImageEditor file) -/

@[simp] lemma updateCropOverlay_history (e : Editor) :
    (updateCropOverlay e).history = e.history := by
  simp only [updateCropOverlay]
  split
  · split_ifs <;> rfl
  · rfl

@[simp] lemma updateCropOverlay_historyIndex (e : Editor) :
    (updateCropOverlay e).historyIndex = e.historyIndex := by
  simp only [updateCropOverlay]
  split
  · split_ifs <;> rfl
  · rfl

@[simp] lemma updateCropOverlay_image (e : Editor) :
    (updateCropOverlay e).image = e.image := by
  simp only [updateCropOverlay]
  split
  · split_ifs <;> rfl
  · rfl

@[simp] lemma updateCropOverlay_originalImage (e : Editor) :
    (updateCropOverlay e).originalImage = e.originalImage := by
  simp only [updateCropOverlay]
  split
  · split_ifs <;> rfl
  · rfl

@[simp] lemma updateCropOverlay_cropMode (e : Editor) :
    (updateCropOverlay e).cropMode = e.cropMode := by
  simp only [updateCropOverlay]
  split
  · split_ifs <;> rfl
  · rfl

@[simp] lemma updateCropOverlay_hasCanvas (e : Editor) :
    (updateCropOverlay e).hasCanvas = e.hasCanvas := by
  simp only [updateCropOverlay]
  split
  · split_ifs <;> rfl
  · rfl

/-- The boundary constraint of `updateCropOverlay` is a no-op exactly
when the crop state already satisfies the invariant with respect to the
current image. -/
lemma updateCropOverlay_noop (e : Editor) (img : Img)
    (himg : e.image = some img)
    (h1 : 0 ≤ e.state.cropX) (h2 : 0 ≤ e.state.cropY)
    (h3 : 50 ≤ e.state.cropWidth) (h4 : 50 ≤ e.state.cropHeight)
    (h5 : e.state.cropX + e.state.cropWidth ≤ (img.width : ℚ))
    (h6 : e.state.cropY + e.state.cropHeight ≤ (img.height : ℚ)) :
    updateCropOverlay e = e := by
  simp only [updateCropOverlay, himg]
  split_ifs with hc
  · have c1 : max 0 (min e.state.cropX (max 0 ((img.width : ℚ) - 50)))
        = e.state.cropX := by
      rw [min_eq_left (le_max_of_le_right (by linarith)), max_eq_right h1]
    have c2 : max 0 (min e.state.cropY (max 0 ((img.height : ℚ) - 50)))
        = e.state.cropY := by
      rw [min_eq_left (le_max_of_le_right (by linarith)), max_eq_right h2]
    have c3 : max 50 (min e.state.cropWidth
        ((img.width : ℚ) - e.state.cropX)) = e.state.cropWidth := by
      rw [min_eq_left (by linarith), max_eq_right h3]
    have c4 : max 50 (min e.state.cropHeight
        ((img.height : ℚ) - e.state.cropY)) = e.state.cropHeight := by
      rw [min_eq_left (by linarith), max_eq_right h4]
    rw [c1, c2, c3, c4, ← himg]
  · rfl

@[simp] lemma updateUIFromState_history (e : Editor) :
    (updateUIFromState e).history = e.history := by
  simp only [updateUIFromState]
  split_ifs <;> simp

@[simp] lemma updateUIFromState_historyIndex (e : Editor) :
    (updateUIFromState e).historyIndex = e.historyIndex := by
  simp only [updateUIFromState]
  split_ifs <;> simp

@[simp] lemma updateUIFromState_image (e : Editor) :
    (updateUIFromState e).image = e.image := by
  simp only [updateUIFromState]
  split_ifs <;> simp

@[simp] lemma updateUIFromState_originalImage (e : Editor) :
    (updateUIFromState e).originalImage = e.originalImage := by
  simp only [updateUIFromState]
  split_ifs <;> simp

@[simp] lemma updateUIFromState_cropMode (e : Editor) :
    (updateUIFromState e).cropMode = e.cropMode := by
  simp only [updateUIFromState]
  split_ifs <;> simp

@[simp] lemma updateUIFromState_hasCanvas (e : Editor) :
    (updateUIFromState e).hasCanvas = e.hasCanvas := by
  simp only [updateUIFromState]
  split_ifs <;> simp

@[simp] lemma renderStep_history (e : Editor) :
    (renderStep e).history = e.history := by
  simp only [renderStep]
  split
  · split_ifs <;> simp
  · rfl

@[simp] lemma renderStep_historyIndex (e : Editor) :
    (renderStep e).historyIndex = e.historyIndex := by
  simp only [renderStep]
  split
  · split_ifs <;> simp
  · rfl

@[simp] lemma renderStep_image (e : Editor) :
    (renderStep e).image = e.image := by
  simp only [renderStep]
  split
  · split_ifs <;> simp
  · rfl

@[simp] lemma renderStep_originalImage (e : Editor) :
    (renderStep e).originalImage = e.originalImage := by
  simp only [renderStep]
  split
  · split_ifs <;> simp
  · rfl

@[simp] lemma renderStep_cropMode (e : Editor) :
    (renderStep e).cropMode = e.cropMode := by
  simp only [renderStep]
  split
  · split_ifs <;> simp
  · rfl

@[simp] lemma renderStep_hasCanvas (e : Editor) :
    (renderStep e).hasCanvas = e.hasCanvas := by
  simp only [renderStep]
  split
  · split_ifs <;> simp
  · rfl

@[simp] lemma calculateFixedCanvasSize_history (vp : Viewport)
    (e : Editor) : (calculateFixedCanvasSize vp e).history = e.history := by
  simp only [calculateFixedCanvasSize]
  split
  · split_ifs <;> rfl
  · rfl

@[simp] lemma calculateFixedCanvasSize_historyIndex (vp : Viewport)
    (e : Editor) :
    (calculateFixedCanvasSize vp e).historyIndex = e.historyIndex := by
  simp only [calculateFixedCanvasSize]
  split
  · split_ifs <;> rfl
  · rfl

@[simp] lemma calculateFixedCanvasSize_image (vp : Viewport) (e : Editor) :
    (calculateFixedCanvasSize vp e).image = e.image := by
  simp only [calculateFixedCanvasSize]
  split
  · split_ifs <;> rfl
  · rfl

@[simp] lemma calculateFixedCanvasSize_originalImage (vp : Viewport)
    (e : Editor) :
    (calculateFixedCanvasSize vp e).originalImage = e.originalImage := by
  simp only [calculateFixedCanvasSize]
  split
  · split_ifs <;> rfl
  · rfl

@[simp] lemma calculateFixedCanvasSize_cropMode (vp : Viewport)
    (e : Editor) :
    (calculateFixedCanvasSize vp e).cropMode = e.cropMode := by
  simp only [calculateFixedCanvasSize]
  split
  · split_ifs <;> rfl
  · rfl

@[simp] lemma calculateFixedCanvasSize_hasCanvas (vp : Viewport)
    (e : Editor) :
    (calculateFixedCanvasSize vp e).hasCanvas = e.hasCanvas := by
  simp only [calculateFixedCanvasSize]
  split
  · split_ifs <;> rfl
  · rfl

/-- `calculateFixedCanvasSize` leaves the state alone whenever the crop
size is already set (nonzero on both axes). -/
lemma calculateFixedCanvasSize_state (vp : Viewport) (e : Editor)
    (hw : e.state.cropWidth ≠ 0) (hh : e.state.cropHeight ≠ 0) :
    (calculateFixedCanvasSize vp e).state = e.state := by
  simp only [calculateFixedCanvasSize]
  split
  · have hneg : ¬(e.state.cropWidth = 0 ∨ e.state.cropHeight = 0) := by
      rintro (h | h)
      · exact hw h
      · exact hh h
    rw [if_neg hneg]
  · rfl

@[simp] lemma saveState_state (e : Editor) :
    (saveState e).state = e.state := by
  simp only [saveState]
  split_ifs <;> rfl

@[simp] lemma saveState_image (e : Editor) :
    (saveState e).image = e.image := by
  simp only [saveState]
  split_ifs <;> rfl

@[simp] lemma saveState_originalImage (e : Editor) :
    (saveState e).originalImage = e.originalImage := by
  simp only [saveState]
  split_ifs <;> rfl

@[simp] lemma saveState_cropMode (e : Editor) :
    (saveState e).cropMode = e.cropMode := by
  simp only [saveState]
  split_ifs <;> rfl

@[simp] lemma saveState_hasCanvas (e : Editor) :
    (saveState e).hasCanvas = e.hasCanvas := by
  simp only [saveState]
  split_ifs <;> rfl

@[simp] lemma saveState_canvasImg (e : Editor) :
    (saveState e).canvasImg = e.canvasImg := by
  simp only [saveState]
  split_ifs <;> rfl

lemma jsOr_zero_right (q : ℚ) : jsOr q 0 = q := by
  unfold jsOr
  split_ifs with h
  · exact h.symm
  · rfl

lemma jsOr_of_ne (q d : ℚ) (h : q ≠ 0) : jsOr q d = q := by
  unfold jsOr
  rw [if_neg h]

/-- `undo`/`redo`'s validation is the identity (apart from dropping the
attached bitmap) on snapshots whose fields already satisfy the floors. -/
lemma validateState_id (e : Editor) (t : EState)
    (hx : 0 ≤ t.cropX) (hy : 0 ≤ t.cropY)
    (hw : 50 ≤ t.cropWidth) (hh : 50 ≤ t.cropHeight) :
    validateState e t = { t with imageDataUrl := none } := by
  unfold validateState
  rw [jsOr_zero_right, jsOr_zero_right,
    jsOr_of_ne _ _ (by intro h0; rw [h0] at hw; norm_num at hw),
    jsOr_of_ne _ _ (by intro h0; rw [h0] at hh; norm_num at hh),
    max_eq_right hx, max_eq_right hy, max_eq_right hw, max_eq_right hh]

/-- `render()` does not change the state when the crop already fits the
current image. -/
lemma renderStep_state_noop (e : Editor) (img : Img)
    (himg : e.image = some img)
    (h1 : 0 ≤ e.state.cropX) (h2 : 0 ≤ e.state.cropY)
    (h3 : 50 ≤ e.state.cropWidth) (h4 : 50 ≤ e.state.cropHeight)
    (h5 : e.state.cropX + e.state.cropWidth ≤ (img.width : ℚ))
    (h6 : e.state.cropY + e.state.cropHeight ≤ (img.height : ℚ)) :
    (renderStep e).state = e.state := by
  simp only [renderStep, himg]
  split_ifs with hc hcm
  · rw [updateCropOverlay_noop
      { e with image := some img, canvasImg := some (paintCanvas e img) }
      img rfl h1 h2 h3 h4 h5 h6]
  · rfl
  · rfl

/-- `updateUIFromState` does not change anything when the crop already
fits the current image. -/
lemma updateUIFromState_noop (e : Editor) (img : Img)
    (himg : e.image = some img)
    (h1 : 0 ≤ e.state.cropX) (h2 : 0 ≤ e.state.cropY)
    (h3 : 50 ≤ e.state.cropWidth) (h4 : 50 ≤ e.state.cropHeight)
    (h5 : e.state.cropX + e.state.cropWidth ≤ (img.width : ℚ))
    (h6 : e.state.cropY + e.state.cropHeight ≤ (img.height : ℚ)) :
    updateUIFromState e = e := by
  simp only [updateUIFromState]
  split_ifs with h
  · exact updateCropOverlay_noop e img himg h1 h2 h3 h4 h5 h6
  · rfl

@[simp] lemma restoreImageFromDataUrl_history (vp : Viewport) (b : Img)
    (e : Editor) :
    (restoreImageFromDataUrl vp b e).history = e.history := by
  simp only [restoreImageFromDataUrl]
  split_ifs <;> simp

@[simp] lemma restoreImageFromDataUrl_historyIndex (vp : Viewport)
    (b : Img) (e : Editor) :
    (restoreImageFromDataUrl vp b e).historyIndex = e.historyIndex := by
  simp only [restoreImageFromDataUrl]
  split_ifs <;> simp

@[simp] lemma restoreImageFromDataUrl_image (vp : Viewport) (b : Img)
    (e : Editor) :
    (restoreImageFromDataUrl vp b e).image = some b := by
  simp only [restoreImageFromDataUrl]
  split_ifs <;> simp

/-- Restoring an image from a snapshot's data URL keeps the freshly
installed state whenever that state's crop fits the decoded bitmap. -/
lemma restoreImageFromDataUrl_state (vp : Viewport) (b : Img) (e : Editor)
    (h1 : 0 ≤ e.state.cropX) (h2 : 0 ≤ e.state.cropY)
    (h3 : 50 ≤ e.state.cropWidth) (h4 : 50 ≤ e.state.cropHeight)
    (h5 : e.state.cropX + e.state.cropWidth ≤ (b.width : ℚ))
    (h6 : e.state.cropY + e.state.cropHeight ≤ (b.height : ℚ)) :
    (restoreImageFromDataUrl vp b e).state = e.state := by
  have hwne : e.state.cropWidth ≠ 0 := by
    intro h0
    rw [h0] at h3
    norm_num at h3
  have hhne : e.state.cropHeight ≠ 0 := by
    intro h0
    rw [h0] at h4
    norm_num at h4
  have hs2 : (calculateFixedCanvasSize vp { e with image := some b }).state
      = e.state := calculateFixedCanvasSize_state vp _ hwne hhne
  have hi2 : (calculateFixedCanvasSize vp { e with image := some b }).image
      = some b := by
    rw [calculateFixedCanvasSize_image]
  have h1b : 0 ≤ (calculateFixedCanvasSize vp
      { e with image := some b }).state.cropX := by rw [hs2]; exact h1
  have h2b : 0 ≤ (calculateFixedCanvasSize vp
      { e with image := some b }).state.cropY := by rw [hs2]; exact h2
  have h3b : 50 ≤ (calculateFixedCanvasSize vp
      { e with image := some b }).state.cropWidth := by rw [hs2]; exact h3
  have h4b : 50 ≤ (calculateFixedCanvasSize vp
      { e with image := some b }).state.cropHeight := by rw [hs2]; exact h4
  have h5b : (calculateFixedCanvasSize vp
        { e with image := some b }).state.cropX +
      (calculateFixedCanvasSize vp
        { e with image := some b }).state.cropWidth ≤ (b.width : ℚ) := by
    rw [hs2]; exact h5
  have h6b : (calculateFixedCanvasSize vp
        { e with image := some b }).state.cropY +
      (calculateFixedCanvasSize vp
        { e with image := some b }).state.cropHeight ≤ (b.height : ℚ) := by
    rw [hs2]; exact h6
  have hui : updateUIFromState (calculateFixedCanvasSize vp
        { e with image := some b }) =
      calculateFixedCanvasSize vp { e with image := some b } :=
    updateUIFromState_noop _ b hi2 h1b h2b h3b h4b h5b h6b
  have hrs : (renderStep (calculateFixedCanvasSize vp
      { e with image := some b })).state = e.state := by
    rw [renderStep_state_noop _ b hi2 h1b h2b h3b h4b h5b h6b, hs2]
  have hri : (renderStep (calculateFixedCanvasSize vp
      { e with image := some b })).image = some b := by
    rw [renderStep_image]
    exact hi2
  simp only [restoreImageFromDataUrl]
  rw [hui]
  split_ifs with hcm
  · rw [updateCropOverlay_noop _ b hri (by rw [hrs]; exact h1)
      (by rw [hrs]; exact h2) (by rw [hrs]; exact h3)
      (by rw [hrs]; exact h4) (by rw [hrs]; exact h5)
      (by rw [hrs]; exact h6)]
    exact hrs
  · exact hrs

/-- `undo`, when it fires on a well-formed history, moves only the index
(and the transient state/image), never the history itself. -/
lemma undoStep_props (vp : Viewport) (e : Editor) (t : EState)
    (hidx : 0 < e.historyIndex)
    (ht : e.history[(e.historyIndex - 1).toNat]? = some t) :
    (undoStep vp e).history = e.history ∧
    (undoStep vp e).historyIndex = e.historyIndex - 1 := by
  simp only [undoStep, if_pos hidx, ht]
  cases hdt : t.imageDataUrl with
  | some b => constructor <;> simp
  | none =>
      constructor
      · split_ifs <;> simp
      · split_ifs <;> simp

/-- Claim C2 (amended): for every editor state whose current history
index `i > 0` addresses a snapshot that (a) projects (minus its attached
bitmap) to the current EditState, (b) has crop fields passing the
`undo`/`redo` validation floors (`cropX, cropY ≥ 0`,
`cropWidth, cropHeight ≥ 50`), and (c) carries a rendered bitmap whose
bounds contain the snapshot's crop rectangle, performing `undo()`
followed by `redo()` restores exactly the EditState (rotation,
flipHorizontal, flipVertical, cropRect) that was current before the
undo, field-wise equal; and the EditableImage after the redo is the
bitmap decoded from that snapshot — the preview-canvas render captured
when the snapshot was pushed — not, in general, the pre-undo
EditableImage. -/
theorem c2_undo_redo_restores_editstate (vp : Viewport) (e : Editor)
    (snap : EState) (b : Img)
    (hidx : 0 < e.historyIndex)
    (hlen : e.historyIndex < (e.history.length : ℤ))
    (hsnap : e.history[e.historyIndex.toNat]? = some snap)
    (hstate : e.state = { snap with imageDataUrl := none })
    (hb : snap.imageDataUrl = some b)
    (hx : 0 ≤ snap.cropX) (hy : 0 ≤ snap.cropY)
    (hw : 50 ≤ snap.cropWidth) (hh : 50 ≤ snap.cropHeight)
    (hfw : snap.cropX + snap.cropWidth ≤ (b.width : ℚ))
    (hfh : snap.cropY + snap.cropHeight ≤ (b.height : ℚ)) :
    (redoStep vp (undoStep vp e)).state = e.state ∧
    (redoStep vp (undoStep vp e)).image = some b := by
  obtain ⟨t, ht⟩ : ∃ t, e.history[(e.historyIndex - 1).toNat]? = some t :=
    ⟨_, List.getElem?_eq_getElem (by omega)⟩
  obtain ⟨hu1, hu2⟩ := undoStep_props vp e t hidx ht
  have hcond : (undoStep vp e).historyIndex <
      ((undoStep vp e).history.length : ℤ) - 1 := by
    rw [hu1, hu2]
    omega
  have hsnap1 : (undoStep vp e).history[((undoStep vp e).historyIndex +
      1).toNat]? = some snap := by
    rw [hu1, hu2, show e.historyIndex - 1 + 1 = e.historyIndex by ring]
    exact hsnap
  simp only [redoStep, if_pos hcond, hsnap1, hb,
    validateState_id (undoStep vp e) snap hx hy hw hh]
  constructor
  · rw [restoreImageFromDataUrl_state vp b _ hx hy hw hh hfw hfh, hstate]
  · rw [restoreImageFromDataUrl_image]

/-- Counterexample to claim C2 as stated: open a `100 × 100` image in a
`100 × 100` container (display scale `0.95`), toggle the horizontal flip
(pushing a snapshot that carries the canvas render, a `95 × 95` bitmap),
then `undo()` and `redo()`.  The redo restores the image from the
snapshot's data URL — the scaled-down canvas render, not the pre-undo
EditableImage — and `updateCropOverlay` then re-clamps the crop to the
`95 × 95` decoded bitmap, so neither the EditState (crop `100` becomes
`95`) nor the EditableImage is restored. -/
theorem c2_undo_redo_counterexample :
    ((toggleFlipStep true
        (openEditor ⟨100, 100⟩ ⟨Pix.src 0, 100, 100⟩)).history.map
      fun s => s.imageDataUrl.isSome) = [false, true] ∧
    0 < (toggleFlipStep true
      (openEditor ⟨100, 100⟩ ⟨Pix.src 0, 100, 100⟩)).historyIndex ∧
    (redoStep ⟨100, 100⟩ (undoStep ⟨100, 100⟩ (toggleFlipStep true
        (openEditor ⟨100, 100⟩ ⟨Pix.src 0, 100, 100⟩)))).state ≠
      (toggleFlipStep true
        (openEditor ⟨100, 100⟩ ⟨Pix.src 0, 100, 100⟩)).state ∧
    (redoStep ⟨100, 100⟩ (undoStep ⟨100, 100⟩ (toggleFlipStep true
        (openEditor ⟨100, 100⟩ ⟨Pix.src 0, 100, 100⟩)))).image ≠
      (toggleFlipStep true
        (openEditor ⟨100, 100⟩ ⟨Pix.src 0, 100, 100⟩)).image := by
  have h1 : toggleFlipStep true
      (openEditor ⟨100, 100⟩ ⟨Pix.src 0, 100, 100⟩) = {
      state := ⟨0, true, false, 0, 0, 100, 100, none⟩,
      history := [⟨0, false, false, 0, 0, 0, 0, none⟩,
        ⟨0, true, false, 0, 0, 100, 100,
          some ⟨Pix.canvasRender 0 false false (Pix.src 0), 95, 95⟩⟩],
      historyIndex := 1,
      image := some ⟨Pix.src 0, 100, 100⟩,
      originalImage := some ⟨Pix.src 0, 100, 100⟩,
      cropMode := true,
      hasCanvas := true,
      canvasImg := some ⟨Pix.canvasRender 0 true false (Pix.src 0), 95, 95⟩,
      imageScale := 19/20,
      fixedCanvasWidth := 95,
      fixedCanvasHeight := 95 } := by
    norm_num [openEditor, saveState, newSnapshot, canvasDataUrl,
      calculateFixedCanvasSize, renderStep, paintCanvas, updateCropOverlay,
      toggleFlipStep]
    all_goals decide
  rw [h1]
  have h2 : undoStep ⟨100, 100⟩ ({
      state := ⟨0, true, false, 0, 0, 100, 100, none⟩,
      history := [⟨0, false, false, 0, 0, 0, 0, none⟩,
        ⟨0, true, false, 0, 0, 100, 100,
          some ⟨Pix.canvasRender 0 false false (Pix.src 0), 95, 95⟩⟩],
      historyIndex := 1,
      image := some ⟨Pix.src 0, 100, 100⟩,
      originalImage := some ⟨Pix.src 0, 100, 100⟩,
      cropMode := true,
      hasCanvas := true,
      canvasImg := some ⟨Pix.canvasRender 0 true false (Pix.src 0), 95, 95⟩,
      imageScale := 19/20,
      fixedCanvasWidth := 95,
      fixedCanvasHeight := 95 } : Editor) = {
      state := ⟨0, false, false, 0, 0, 100, 100, none⟩,
      history := [⟨0, false, false, 0, 0, 0, 0, none⟩,
        ⟨0, true, false, 0, 0, 100, 100,
          some ⟨Pix.canvasRender 0 false false (Pix.src 0), 95, 95⟩⟩],
      historyIndex := 0,
      image := some ⟨Pix.src 0, 100, 100⟩,
      originalImage := some ⟨Pix.src 0, 100, 100⟩,
      cropMode := true,
      hasCanvas := true,
      canvasImg := some ⟨Pix.canvasRender 0 false false (Pix.src 0), 95, 95⟩,
      imageScale := 19/20,
      fixedCanvasWidth := 95,
      fixedCanvasHeight := 95 } := by
    norm_num [undoStep, validateState, jsOr, widthFallback, heightFallback,
      calculateFixedCanvasSize, updateUIFromState, updateCropOverlay,
      renderStep, paintCanvas, restoreImageFromDataUrl]
    all_goals decide
  rw [h2]
  have h3 : redoStep ⟨100, 100⟩ ({
      state := ⟨0, false, false, 0, 0, 100, 100, none⟩,
      history := [⟨0, false, false, 0, 0, 0, 0, none⟩,
        ⟨0, true, false, 0, 0, 100, 100,
          some ⟨Pix.canvasRender 0 false false (Pix.src 0), 95, 95⟩⟩],
      historyIndex := 0,
      image := some ⟨Pix.src 0, 100, 100⟩,
      originalImage := some ⟨Pix.src 0, 100, 100⟩,
      cropMode := true,
      hasCanvas := true,
      canvasImg := some ⟨Pix.canvasRender 0 false false (Pix.src 0), 95, 95⟩,
      imageScale := 19/20,
      fixedCanvasWidth := 95,
      fixedCanvasHeight := 95 } : Editor) = {
      state := ⟨0, true, false, 0, 0, 95, 95, none⟩,
      history := [⟨0, false, false, 0, 0, 0, 0, none⟩,
        ⟨0, true, false, 0, 0, 100, 100,
          some ⟨Pix.canvasRender 0 false false (Pix.src 0), 95, 95⟩⟩],
      historyIndex := 1,
      image := some ⟨Pix.canvasRender 0 false false (Pix.src 0), 95, 95⟩,
      originalImage := some ⟨Pix.src 0, 100, 100⟩,
      cropMode := true,
      hasCanvas := true,
      canvasImg := some ⟨Pix.canvasRender 0 true false
        (Pix.canvasRender 0 false false (Pix.src 0)), 95, 95⟩,
      imageScale := 1,
      fixedCanvasWidth := 95,
      fixedCanvasHeight := 95 } := by
    norm_num [redoStep, validateState, jsOr, widthFallback, heightFallback,
      calculateFixedCanvasSize, updateUIFromState, updateCropOverlay,
      renderStep, paintCanvas, restoreImageFromDataUrl]
    all_goals decide
  rw [h3]
  refine ⟨by simp, by norm_num, ?_, ?_⟩
  · intro hc
    norm_num [EState.mk.injEq] at hc
  · intro hc
    simp at hc

/-- Witness for the amended C2: the same flip trace in a `300 × 300`
container (display scale `2.85`, canvas render `285 × 285`, so the
`100 × 100` crop fits the decoded bitmap) — undo-then-redo restores the
EditState exactly and installs the snapshot's decoded render. -/
theorem c2_undo_redo_restores_editstate_witness :
    (redoStep ⟨300, 300⟩ (undoStep ⟨300, 300⟩ (toggleFlipStep true
        (openEditor ⟨300, 300⟩ ⟨Pix.src 0, 100, 100⟩)))).state =
      (toggleFlipStep true
        (openEditor ⟨300, 300⟩ ⟨Pix.src 0, 100, 100⟩)).state ∧
    (redoStep ⟨300, 300⟩ (undoStep ⟨300, 300⟩ (toggleFlipStep true
        (openEditor ⟨300, 300⟩ ⟨Pix.src 0, 100, 100⟩)))).image =
      some ⟨Pix.canvasRender 0 false false (Pix.src 0), 285, 285⟩ := by
  have h1 : toggleFlipStep true
      (openEditor ⟨300, 300⟩ ⟨Pix.src 0, 100, 100⟩) = {
      state := ⟨0, true, false, 0, 0, 100, 100, none⟩,
      history := [⟨0, false, false, 0, 0, 0, 0, none⟩,
        ⟨0, true, false, 0, 0, 100, 100,
          some ⟨Pix.canvasRender 0 false false (Pix.src 0), 285, 285⟩⟩],
      historyIndex := 1,
      image := some ⟨Pix.src 0, 100, 100⟩,
      originalImage := some ⟨Pix.src 0, 100, 100⟩,
      cropMode := true,
      hasCanvas := true,
      canvasImg := some ⟨Pix.canvasRender 0 true false (Pix.src 0),
        285, 285⟩,
      imageScale := 57/20,
      fixedCanvasWidth := 285,
      fixedCanvasHeight := 285 } := by
    norm_num [openEditor, saveState, newSnapshot, canvasDataUrl,
      calculateFixedCanvasSize, renderStep, paintCanvas, updateCropOverlay,
      toggleFlipStep]
    all_goals decide
  rw [h1]
  exact c2_undo_redo_restores_editstate ⟨300, 300⟩ _
    ⟨0, true, false, 0, 0, 100, 100,
      some ⟨Pix.canvasRender 0 false false (Pix.src 0), 285, 285⟩⟩
    ⟨Pix.canvasRender 0 false false (Pix.src 0), 285, 285⟩
    (by norm_num) (by norm_num) rfl rfl rfl (by norm_num) (by norm_num)
    (by norm_num) (by norm_num) (by norm_num) (by norm_num)

/-- Claim C3: for every push on a well-formed history
(`-1 ≤ index < length ≤ 50`): the push first discards all entries after
the current index (when `index < length - 1`; expressed uniformly as
keeping `take (index + 1)`), then appends the new snapshot and increments
the index; the history length never exceeds 50; and pushing when the
length would become 51 evicts the oldest entry and decrements the index
by exactly 1 (relative to the increment).  Well-formedness is itself
preserved. -/
theorem c3_push_truncates_caps_history (e : Editor)
    (h1 : -1 ≤ e.historyIndex)
    (h2 : e.historyIndex < (e.history.length : ℤ))
    (h3 : e.history.length ≤ 50) :
    (saveState e).history.length ≤ 50 ∧
    -1 ≤ (saveState e).historyIndex ∧
    (saveState e).historyIndex < ((saveState e).history.length : ℤ) ∧
    ((e.history.take (e.historyIndex + 1).toNat).length + 1 ≤ 50 →
      (saveState e).history =
        e.history.take (e.historyIndex + 1).toNat ++ [newSnapshot e] ∧
      (saveState e).historyIndex = e.historyIndex + 1) ∧
    ((e.history.take (e.historyIndex + 1).toNat).length + 1 = 51 →
      (saveState e).history =
        (e.history.take (e.historyIndex + 1).toNat ++ [newSnapshot e]).tail ∧
      (saveState e).history.length = 50 ∧
      (saveState e).historyIndex = e.historyIndex + 1 - 1) := by
  have hlt : (e.history.take (e.historyIndex + 1).toNat).length =
      min (e.historyIndex + 1).toNat e.history.length :=
    List.length_take _ _
  simp only [saveState]
  by_cases c1 : e.historyIndex < (e.history.length : ℤ) - 1
  · simp only [if_pos c1]
    split_ifs with c2
    · exfalso
      simp only [List.length_append, List.length_singleton] at c2
      push_cast at c2
      omega
    · simp only [List.length_append, List.length_singleton] at c2
      push_cast at c2
      refine ⟨?_, ?_, ?_, fun _ => ⟨rfl, rfl⟩, fun hcap => ?_⟩
      · show (e.history.take (e.historyIndex + 1).toNat ++
          [newSnapshot e]).length ≤ 50
        simp only [List.length_append, List.length_singleton]
        omega
      · show -1 ≤ e.historyIndex + 1
        omega
      · show e.historyIndex + 1 < ((e.history.take
          (e.historyIndex + 1).toNat ++ [newSnapshot e]).length : ℤ)
        simp only [List.length_append, List.length_singleton]
        push_cast
        omega
      · exfalso
        omega
  · have htake : e.history.take (e.historyIndex + 1).toNat = e.history :=
      List.take_of_length_le (by omega)
    rw [htake]
    simp only [if_neg c1]
    split_ifs with c2
    · simp only [List.length_append, List.length_singleton] at c2
      push_cast at c2
      refine ⟨?_, ?_, ?_, fun hcap => ?_, fun _ => ⟨rfl, ?_, rfl⟩⟩
      · show ((e.history ++ [newSnapshot e]).tail).length ≤ 50
        simp only [List.length_tail, List.length_append,
          List.length_singleton]
        omega
      · show -1 ≤ e.historyIndex + 1 - 1
        omega
      · show e.historyIndex + 1 - 1 <
          (((e.history ++ [newSnapshot e]).tail).length : ℤ)
        simp only [List.length_tail, List.length_append,
          List.length_singleton]
        push_cast
        omega
      · exfalso
        omega
      · show ((e.history ++ [newSnapshot e]).tail).length = 50
        simp only [List.length_tail, List.length_append,
          List.length_singleton]
        omega
    · simp only [List.length_append, List.length_singleton] at c2
      push_cast at c2
      refine ⟨?_, ?_, ?_, fun _ => ⟨rfl, rfl⟩, fun hcap => ?_⟩
      · show (e.history ++ [newSnapshot e]).length ≤ 50
        simp only [List.length_append, List.length_singleton]
        omega
      · show -1 ≤ e.historyIndex + 1
        omega
      · show e.historyIndex + 1 <
          ((e.history ++ [newSnapshot e]).length : ℤ)
        simp only [List.length_append, List.length_singleton]
        push_cast
        omega
      · exfalso
        omega

/-- Witness for C3: pushing onto a one-entry history at index 0 keeps the
cap and moves the index to 1. -/
theorem c3_push_truncates_caps_history_witness :
    (saveState {
      state := ⟨0, false, false, 0, 0, 100, 100, none⟩,
      history := [⟨0, false, false, 0, 0, 100, 100, none⟩],
      historyIndex := 0,
      image := none, originalImage := none, cropMode := false,
      hasCanvas := false, canvasImg := none, imageScale := 1,
      fixedCanvasWidth := 0, fixedCanvasHeight := 0 }).history.length ≤ 50 ∧
    (saveState {
      state := ⟨0, false, false, 0, 0, 100, 100, none⟩,
      history := [⟨0, false, false, 0, 0, 100, 100, none⟩],
      historyIndex := 0,
      image := none, originalImage := none, cropMode := false,
      hasCanvas := false, canvasImg := none, imageScale := 1,
      fixedCanvasWidth := 0, fixedCanvasHeight := 0 }).historyIndex
      = 0 + 1 := by
  have h := c3_push_truncates_caps_history {
      state := ⟨0, false, false, 0, 0, 100, 100, none⟩,
      history := [⟨0, false, false, 0, 0, 100, 100, none⟩],
      historyIndex := 0,
      image := none, originalImage := none, cropMode := false,
      hasCanvas := false, canvasImg := none, imageScale := 1,
      fixedCanvasWidth := 0, fixedCanvasHeight := 0 }
    (by norm_num) (by norm_num) (by norm_num)
  exact ⟨h.1, (h.2.2.2.1 (by simp)).2⟩

/-- The last entry after `saveState`'s push-and-cap is always the freshly
pushed snapshot. -/
lemma pushCap_getLast (l : List EState) (s : EState) :
    (if 50 < ((l ++ [s]).length : ℤ) then (l ++ [s]).tail
      else l ++ [s]).getLast? = some s := by
  split_ifs with h
  · cases l with
    | nil => simp at h
    | cons a t => simp [List.getLast?_append]
  · simp [List.getLast?_append]

/-- Claim C4 (amended): a pushed snapshot carries a rendered bitmap if
and only if the canvas element exists at push time — `saveState` always
attaches `canvas.toDataURL()` ("Always include image data for proper
history restoration"), regardless of whether the operation replaced the
EditableImage; since `openEditor` pushes the initial snapshot before the
UI is created and every later push happens with the canvas present, only
the initial snapshot lacks a bitmap, and snapshots pushed for pure
parameter changes (flip toggle, rotation) do carry one. -/
theorem c4_snapshot_bitmap_iff_canvas (e : Editor) (vp : Viewport)
    (img : Img) :
    ((saveState e).history.getLast?.map fun s => s.imageDataUrl.isSome) =
      some e.hasCanvas ∧
    ((openEditor vp img).history.map fun s => s.imageDataUrl) = [none] ∧
    (openEditor vp img).hasCanvas = true := by
  refine ⟨?_, ?_, ?_⟩
  · simp only [saveState, apply_ite Editor.history]
    rw [pushCap_getLast]
    cases hc : e.hasCanvas <;> simp [newSnapshot, canvasDataUrl, hc]
  · norm_num [openEditor, saveState, newSnapshot, canvasDataUrl]
  · norm_num [openEditor, saveState]

/-- Counterexample to claim C4 as stated: the snapshot pushed by a
horizontal flip toggle — a pure parameter change that does not replace
the EditableImage — carries a rendered bitmap (the canvas render at push
time). -/
theorem c4_flip_snapshot_carries_bitmap_counterexample :
    ((toggleFlipStep true
        (openEditor ⟨100, 100⟩ ⟨Pix.src 0, 100, 100⟩)).history.map
      fun s => s.imageDataUrl) =
      [none,
        some ⟨Pix.canvasRender 0 false false (Pix.src 0), 95, 95⟩] := by
  have h1 : toggleFlipStep true
      (openEditor ⟨100, 100⟩ ⟨Pix.src 0, 100, 100⟩) = {
      state := ⟨0, true, false, 0, 0, 100, 100, none⟩,
      history := [⟨0, false, false, 0, 0, 0, 0, none⟩,
        ⟨0, true, false, 0, 0, 100, 100,
          some ⟨Pix.canvasRender 0 false false (Pix.src 0), 95, 95⟩⟩],
      historyIndex := 1,
      image := some ⟨Pix.src 0, 100, 100⟩,
      originalImage := some ⟨Pix.src 0, 100, 100⟩,
      cropMode := true,
      hasCanvas := true,
      canvasImg := some ⟨Pix.canvasRender 0 true false (Pix.src 0), 95, 95⟩,
      imageScale := 19/20,
      fixedCanvasWidth := 95,
      fixedCanvasHeight := 95 } := by
    norm_num [openEditor, saveState, newSnapshot, canvasDataUrl,
      calculateFixedCanvasSize, renderStep, paintCanvas, updateCropOverlay,
      toggleFlipStep]
    all_goals decide
  rw [h1]
  rfl

/-- `redo`, when it fires on a well-formed history, moves only the index
(and the transient state/image), never the history itself. -/
lemma redoStep_props (vp : Viewport) (e : Editor) (t : EState)
    (hcond : e.historyIndex < (e.history.length : ℤ) - 1)
    (ht : e.history[(e.historyIndex + 1).toNat]? = some t) :
    (redoStep vp e).history = e.history ∧
    (redoStep vp e).historyIndex = e.historyIndex + 1 := by
  simp only [redoStep, if_pos hcond, ht]
  cases hdt : t.imageDataUrl with
  | some b => constructor <;> simp
  | none =>
      constructor
      · split_ifs <;> simp
      · split_ifs <;> simp

/-- `calculateFixedCanvasSize` run right after `resetAll` installed the
identity state leaves that state intact (the crop re-initialisation, if
it fires at all, writes back exactly the full-image crop). -/
lemma calculateFixedCanvasSize_identity (vp : Viewport) (orig : Img)
    (e : Editor) (hst : e.state = identityState orig)
    (himg : e.image = some orig) :
    (calculateFixedCanvasSize vp e).state = identityState orig := by
  simp only [calculateFixedCanvasSize]
  split
  · rename_i img2 hc hi
    rw [himg] at hi
    injection hi with hi
    subst hi
    by_cases h : e.state.cropWidth = 0 ∨ e.state.cropHeight = 0
    · rw [if_pos h, hst]
      rfl
    · rw [if_neg h]
      exact hst
  · exact hst

/-- `resetAll` sets the index to 0, overwrites entry 0 with the identity
state, keeps every later entry, and leaves `redo` able to advance to
entry 1 whenever the history has more than one entry. -/
lemma resetAll_props (vp : Viewport)
    (e : Editor) (orig : Img)
    (horig : e.originalImage = some orig)
    (hlen : 0 < e.history.length) :
    (resetAllStep vp e).historyIndex = 0 ∧
    (resetAllStep vp e).history = e.history.set 0 (identityState orig) ∧
    (resetAllStep vp e).history.length = e.history.length ∧
    (∀ i, 1 ≤ i → (resetAllStep vp e).history[i]? = e.history[i]?) ∧
    (1 < e.history.length →
      (redoStep vp (resetAllStep vp e)).historyIndex = 1) := by
  have hst : (calculateFixedCanvasSize vp { e with
      state := identityState orig
      image := some orig
      originalImage := some orig }).state = identityState orig :=
    calculateFixedCanvasSize_identity vp orig _ rfl rfl
  have hhi : (calculateFixedCanvasSize vp { e with
      state := identityState orig
      image := some orig
      originalImage := some orig }).history = e.history := by
    rw [calculateFixedCanvasSize_history]
  have hidx : (resetAllStep vp e).historyIndex = 0 := by
    simp only [resetAllStep, horig]
    simp
  have hhist : (resetAllStep vp e).history =
      e.history.set 0 (identityState orig) := by
    simp only [resetAllStep, horig]
    simp only [renderStep_history, updateUIFromState_history]
    rw [hst, hhi]
  refine ⟨hidx, hhist, ?_, ?_, ?_⟩
  · rw [hhist]
    exact List.length_set _ _ _
  · intro i hi
    rw [hhist]
    exact List.getElem?_set_ne (by omega)
  · intro hlen2
    have ht : (resetAllStep vp e).history[((resetAllStep vp e).historyIndex
        + 1).toNat]? = some (e.history.get ⟨1, hlen2⟩) := by
      rw [hhist, hidx]
      rw [show ((0 : ℤ) + 1).toNat = 1 from rfl]
      rw [List.getElem?_set_ne (by omega)]
      rw [List.getElem?_eq_getElem hlen2]
      rfl
    have hcond : (resetAllStep vp e).historyIndex <
        ((resetAllStep vp e).history.length : ℤ) - 1 := by
      rw [hidx, hhist, List.length_set]
      push_cast
      omega
    obtain ⟨-, hridx⟩ := redoStep_props vp (resetAllStep vp e) _ hcond ht
    rw [hridx, hidx]
    norm_num

/-- Claim C5 (amended): `resetAll()` sets the history index to 0 and
overwrites entry 0 with the original identity EditState (rotation 0, no
flips, crop equal to the full original image); it does not remove the
entries after index 0 — and consequently redo after `resetAll` is *not*
disabled: whenever more than one entry remains, `redo()` fires and
advances the index to 1. -/
theorem c5_resetAll_overwrites_entry0_redo_enabled (vp : Viewport)
    (e : Editor) (orig : Img)
    (horig : e.originalImage = some orig)
    (hlen : 0 < e.history.length) :
    (resetAllStep vp e).historyIndex = 0 ∧
    (resetAllStep vp e).history = e.history.set 0 (identityState orig) ∧
    (resetAllStep vp e).history.length = e.history.length ∧
    (∀ i, 1 ≤ i → (resetAllStep vp e).history[i]? = e.history[i]?) ∧
    (1 < e.history.length →
      (redoStep vp (resetAllStep vp e)).historyIndex = 1) :=
  resetAll_props vp e orig horig hlen

/-- Witness for the amended C5: the flip trace — `resetAll` returns to
index 0, keeps both history entries, and a subsequent `redo` advances to
index 1. -/
theorem c5_resetAll_overwrites_entry0_redo_enabled_witness :
    (resetAllStep ⟨100, 100⟩ (toggleFlipStep true
      (openEditor ⟨100, 100⟩ ⟨Pix.src 0, 100, 100⟩))).historyIndex = 0 ∧
    (resetAllStep ⟨100, 100⟩ (toggleFlipStep true
      (openEditor ⟨100, 100⟩
        ⟨Pix.src 0, 100, 100⟩))).history.length = 2 ∧
    (redoStep ⟨100, 100⟩ (resetAllStep ⟨100, 100⟩ (toggleFlipStep true
      (openEditor ⟨100, 100⟩
        ⟨Pix.src 0, 100, 100⟩)))).historyIndex = 1 := by
  have h1 : toggleFlipStep true
      (openEditor ⟨100, 100⟩ ⟨Pix.src 0, 100, 100⟩) = {
      state := ⟨0, true, false, 0, 0, 100, 100, none⟩,
      history := [⟨0, false, false, 0, 0, 0, 0, none⟩,
        ⟨0, true, false, 0, 0, 100, 100,
          some ⟨Pix.canvasRender 0 false false (Pix.src 0), 95, 95⟩⟩],
      historyIndex := 1,
      image := some ⟨Pix.src 0, 100, 100⟩,
      originalImage := some ⟨Pix.src 0, 100, 100⟩,
      cropMode := true,
      hasCanvas := true,
      canvasImg := some ⟨Pix.canvasRender 0 true false (Pix.src 0), 95, 95⟩,
      imageScale := 19/20,
      fixedCanvasWidth := 95,
      fixedCanvasHeight := 95 } := by
    norm_num [openEditor, saveState, newSnapshot, canvasDataUrl,
      calculateFixedCanvasSize, renderStep, paintCanvas, updateCropOverlay,
      toggleFlipStep]
    all_goals decide
  rw [h1]
  have h := c5_resetAll_overwrites_entry0_redo_enabled ⟨100, 100⟩ ({
      state := ⟨0, true, false, 0, 0, 100, 100, none⟩,
      history := [⟨0, false, false, 0, 0, 0, 0, none⟩,
        ⟨0, true, false, 0, 0, 100, 100,
          some ⟨Pix.canvasRender 0 false false (Pix.src 0), 95, 95⟩⟩],
      historyIndex := 1,
      image := some ⟨Pix.src 0, 100, 100⟩,
      originalImage := some ⟨Pix.src 0, 100, 100⟩,
      cropMode := true,
      hasCanvas := true,
      canvasImg := some ⟨Pix.canvasRender 0 true false (Pix.src 0), 95, 95⟩,
      imageScale := 19/20,
      fixedCanvasWidth := 95,
      fixedCanvasHeight := 95 } : Editor)
    ⟨Pix.src 0, 100, 100⟩ rfl (by norm_num)
  refine ⟨h.1, ?_, h.2.2.2.2 (by norm_num)⟩
  rw [h.2.2.1]
  rfl

/-- Counterexample to claim C5 as stated (redo after `resetAll` is
disabled): after `resetAll` on a two-entry history the index is 0 and
`redo()` is not a no-op — it advances the index to 1 and changes the
editor state. -/
theorem c5_redo_after_reset_counterexample :
    (resetAllStep ⟨100, 100⟩ (toggleFlipStep false
      (openEditor ⟨100, 100⟩ ⟨Pix.src 0, 100, 100⟩))).historyIndex = 0 ∧
    (redoStep ⟨100, 100⟩ (resetAllStep ⟨100, 100⟩ (toggleFlipStep false
      (openEditor ⟨100, 100⟩
        ⟨Pix.src 0, 100, 100⟩)))).historyIndex = 1 ∧
    redoStep ⟨100, 100⟩ (resetAllStep ⟨100, 100⟩ (toggleFlipStep false
        (openEditor ⟨100, 100⟩ ⟨Pix.src 0, 100, 100⟩))) ≠
      resetAllStep ⟨100, 100⟩ (toggleFlipStep false
        (openEditor ⟨100, 100⟩ ⟨Pix.src 0, 100, 100⟩)) := by
  have h1 : toggleFlipStep false
      (openEditor ⟨100, 100⟩ ⟨Pix.src 0, 100, 100⟩) = {
      state := ⟨0, false, true, 0, 0, 100, 100, none⟩,
      history := [⟨0, false, false, 0, 0, 0, 0, none⟩,
        ⟨0, false, true, 0, 0, 100, 100,
          some ⟨Pix.canvasRender 0 false false (Pix.src 0), 95, 95⟩⟩],
      historyIndex := 1,
      image := some ⟨Pix.src 0, 100, 100⟩,
      originalImage := some ⟨Pix.src 0, 100, 100⟩,
      cropMode := true,
      hasCanvas := true,
      canvasImg := some ⟨Pix.canvasRender 0 false true (Pix.src 0), 95, 95⟩,
      imageScale := 19/20,
      fixedCanvasWidth := 95,
      fixedCanvasHeight := 95 } := by
    norm_num [openEditor, saveState, newSnapshot, canvasDataUrl,
      calculateFixedCanvasSize, renderStep, paintCanvas, updateCropOverlay,
      toggleFlipStep]
    all_goals decide
  rw [h1]
  have h := resetAll_props ⟨100, 100⟩ ({
      state := ⟨0, false, true, 0, 0, 100, 100, none⟩,
      history := [⟨0, false, false, 0, 0, 0, 0, none⟩,
        ⟨0, false, true, 0, 0, 100, 100,
          some ⟨Pix.canvasRender 0 false false (Pix.src 0), 95, 95⟩⟩],
      historyIndex := 1,
      image := some ⟨Pix.src 0, 100, 100⟩,
      originalImage := some ⟨Pix.src 0, 100, 100⟩,
      cropMode := true,
      hasCanvas := true,
      canvasImg := some ⟨Pix.canvasRender 0 false true (Pix.src 0), 95, 95⟩,
      imageScale := 19/20,
      fixedCanvasWidth := 95,
      fixedCanvasHeight := 95 } : Editor)
    ⟨Pix.src 0, 100, 100⟩ rfl (by norm_num)
  refine ⟨h.1, h.2.2.2.2 (by norm_num), ?_⟩
  intro hc
  have hcontra := congrArg Editor.historyIndex hc
  rw [h.1, h.2.2.2.2 (by norm_num)] at hcontra
  norm_num at hcontra

/-- After `applyCrop` has installed a full-bounds crop on the new image,
the recompute/push/render tail of the flow leaves the crop untouched and
`handleSave` sizes its output to the rounded crop. -/
lemma saveRenderDims (vp : Viewport) (X : Editor) (N : Img)
    (himg : X.image = some N)
    (hx : X.state.cropX = 0) (hy : X.state.cropY = 0)
    (hw : X.state.cropWidth = (N.width : ℚ))
    (hh : X.state.cropHeight = (N.height : ℚ))
    (h50w : 50 ≤ (N.width : ℚ)) (h50h : 50 ≤ (N.height : ℚ)) :
    handleSaveDims (renderStep (saveState (calculateFixedCanvasSize vp X)))
      = some (N.width, N.height) := by
  have hwne : X.state.cropWidth ≠ 0 := by
    rw [hw]
    exact ne_of_gt (lt_of_lt_of_le (by norm_num) h50w)
  have hhne : X.state.cropHeight ≠ 0 := by
    rw [hh]
    exact ne_of_gt (lt_of_lt_of_le (by norm_num) h50h)
  have hcst : (calculateFixedCanvasSize vp X).state = X.state :=
    calculateFixedCanvasSize_state vp X hwne hhne
  have hsst : (saveState (calculateFixedCanvasSize vp X)).state = X.state :=
    by rw [saveState_state, hcst]
  have hsim : (saveState (calculateFixedCanvasSize vp X)).image = some N :=
    by rw [saveState_image, calculateFixedCanvasSize_image, himg]
  have hrst : (renderStep (saveState
      (calculateFixedCanvasSize vp X))).state = X.state := by
    rw [renderStep_state_noop _ N hsim (by rw [hsst, hx])
      (by rw [hsst, hy]) (by rw [hsst, hw]; exact h50w)
      (by rw [hsst, hh]; exact h50h)
      (by rw [hsst, hx, hw]; norm_num)
      (by rw [hsst, hy, hh]; norm_num), hsst]
  have hrim : (renderStep (saveState
      (calculateFixedCanvasSize vp X))).image = some N := by
    rw [renderStep_image, hsim]
  simp only [handleSaveDims, hrim]
  rw [hrst, hw, hh]
  norm_num [Int.toNat_natCast]

/-- Claim C6 (amended): for every image of natural size `W × H` with
`W ≥ 50` and `H ≥ 50`, the crop rectangle equal to the full image bounds
`{0, 0, W, H}` and no further edits pending (rotation 0, no flips),
`applyCrop()` followed by `save()` produces an output image whose
dimensions are exactly `W × H`, i.e.
`round(cropRect.width) × round(cropRect.height)`. -/
theorem c6_full_crop_save_dims (vp : Viewport) (e : Editor) (img : Img)
    (himg : e.image = some img)
    (hW : 50 ≤ img.width) (hH : 50 ≤ img.height)
    (hx : e.state.cropX = 0) (hy : e.state.cropY = 0)
    (hw : e.state.cropWidth = (img.width : ℚ))
    (hh : e.state.cropHeight = (img.height : ℚ))
    (hrot : e.state.rotation = 0) (hfx : e.state.flipX = false)
    (hfy : e.state.flipY = false) :
    handleSaveDims (applyCropStep vp e) = some (img.width, img.height) := by
  have hNw : (croppedImage e img).width = img.width := by
    show (⌊e.state.cropWidth⌋).toNat = img.width
    rw [hw, Int.floor_natCast]
    exact Int.toNat_natCast _
  have hNh : (croppedImage e img).height = img.height := by
    show (⌊e.state.cropHeight⌋).toNat = img.height
    rw [hh, Int.floor_natCast]
    exact Int.toNat_natCast _
  simp only [applyCropStep, himg]
  rw [show (some (img.width, img.height) : Option (ℕ × ℕ)) =
    some ((croppedImage e img).width, (croppedImage e img).height) by
      rw [hNw, hNh]]
  exact saveRenderDims vp _ (croppedImage e img) rfl rfl rfl rfl rfl
    (by rw [hNw]; exact_mod_cast hW) (by rw [hNh]; exact_mod_cast hH)

/-- Witness for the amended C6: a `100 × 100` image with a full-bounds
crop — apply-crop then save yields exactly `100 × 100`. -/
theorem c6_full_crop_save_dims_witness :
    handleSaveDims (applyCropStep ⟨200, 200⟩ {
      state := ⟨0, false, false, 0, 0, 100, 100, none⟩,
      history := [⟨0, false, false, 0, 0, 100, 100, none⟩],
      historyIndex := 0,
      image := some ⟨Pix.src 7, 100, 100⟩,
      originalImage := some ⟨Pix.src 7, 100, 100⟩,
      cropMode := true,
      hasCanvas := false,
      canvasImg := none,
      imageScale := 1,
      fixedCanvasWidth := 0,
      fixedCanvasHeight := 0 }) = some (100, 100) :=
  c6_full_crop_save_dims ⟨200, 200⟩ _ ⟨Pix.src 7, 100, 100⟩ rfl
    (by norm_num) (by norm_num) rfl rfl (by norm_num) (by norm_num)
    rfl rfl rfl

/-- Counterexample to claim C6 as stated: a `30 × 30` image.  Open it
(crop mode clamps the crop to `50 × 50` at once), switch to the rotation
tab (disabling the overlay clamp), `resetAll` (restoring the genuine
full-bounds crop `{0, 0, 30, 30}`), switch back to the crop tab and
apply the crop with rotation 0 and no flips: the render that follows
`applyCrop` re-clamps the crop to the 50-pixel minimum, and `save()`
outputs `50 × 50`, not `30 × 30`. -/
theorem c6_small_image_counterexample :
    (switchTab true (resetAllStep ⟨100, 100⟩ (switchTab false
      (openEditor ⟨100, 100⟩ ⟨Pix.src 0, 30, 30⟩)))).image =
        some ⟨Pix.src 0, 30, 30⟩ ∧
    (switchTab true (resetAllStep ⟨100, 100⟩ (switchTab false
      (openEditor ⟨100, 100⟩ ⟨Pix.src 0, 30, 30⟩)))).state =
        ⟨0, false, false, 0, 0, 30, 30, none⟩ ∧
    handleSaveDims (applyCropStep ⟨100, 100⟩ (switchTab true
      (resetAllStep ⟨100, 100⟩ (switchTab false
        (openEditor ⟨100, 100⟩ ⟨Pix.src 0, 30, 30⟩))))) = some (50, 50) ∧
    handleSaveDims (applyCropStep ⟨100, 100⟩ (switchTab true
      (resetAllStep ⟨100, 100⟩ (switchTab false
        (openEditor ⟨100, 100⟩ ⟨Pix.src 0, 30, 30⟩))))) ≠
      some (30, 30) := by
  have hA : switchTab true (resetAllStep ⟨100, 100⟩ (switchTab false
      (openEditor ⟨100, 100⟩ ⟨Pix.src 0, 30, 30⟩))) = {
      state := ⟨0, false, false, 0, 0, 30, 30, none⟩,
      history := [⟨0, false, false, 0, 0, 30, 30, none⟩],
      historyIndex := 0,
      image := some ⟨Pix.src 0, 30, 30⟩,
      originalImage := some ⟨Pix.src 0, 30, 30⟩,
      cropMode := true,
      hasCanvas := true,
      canvasImg := some ⟨Pix.canvasRender 0 false false (Pix.src 0), 95, 95⟩,
      imageScale := 19/6,
      fixedCanvasWidth := 95,
      fixedCanvasHeight := 95 } := by
    norm_num [openEditor, saveState, newSnapshot, canvasDataUrl,
      calculateFixedCanvasSize, renderStep, paintCanvas, updateCropOverlay,
      updateUIFromState, switchTab, resetAllStep, identityState]
    all_goals decide
  rw [hA]
  have hB : applyCropStep ⟨100, 100⟩ ({
      state := ⟨0, false, false, 0, 0, 30, 30, none⟩,
      history := [⟨0, false, false, 0, 0, 30, 30, none⟩],
      historyIndex := 0,
      image := some ⟨Pix.src 0, 30, 30⟩,
      originalImage := some ⟨Pix.src 0, 30, 30⟩,
      cropMode := true,
      hasCanvas := true,
      canvasImg := some ⟨Pix.canvasRender 0 false false (Pix.src 0), 95, 95⟩,
      imageScale := 19/6,
      fixedCanvasWidth := 95,
      fixedCanvasHeight := 95 } : Editor) = {
      state := ⟨0, false, false, 0, 0, 50, 50, none⟩,
      history := [⟨0, false, false, 0, 0, 30, 30, none⟩,
        ⟨0, false, false, 0, 0, 30, 30,
          some ⟨Pix.canvasRender 0 false false (Pix.src 0), 95, 95⟩⟩],
      historyIndex := 1,
      image := some ⟨Pix.cropMade 0 0 30 30 (Pix.src 0), 30, 30⟩,
      originalImage := some ⟨Pix.src 0, 30, 30⟩,
      cropMode := true,
      hasCanvas := true,
      canvasImg := some ⟨Pix.canvasRender 0 false false
        (Pix.cropMade 0 0 30 30 (Pix.src 0)), 95, 95⟩,
      imageScale := 19/6,
      fixedCanvasWidth := 95,
      fixedCanvasHeight := 95 } := by
    norm_num [applyCropStep, croppedImage, saveState, newSnapshot,
      canvasDataUrl, calculateFixedCanvasSize, renderStep, paintCanvas,
      updateCropOverlay]
    have ht30 : Int.toNat 30 = 30 := by decide
    have ht95 : Int.toNat 95 = 95 := by decide
    rw [ht30, ht95]
    norm_num
  rw [hB]
  refine ⟨rfl, rfl, ?_, ?_⟩
  · norm_num [handleSaveDims, Int.toNat_ofNat]
    decide
  · norm_num [handleSaveDims, Int.toNat_ofNat]
    decide
